/-
Verification of the AI Compliance Guard hybrid compliance pipeline.

This file gives a shallow embedding, in Lean 4, of the core analysis modules of
the repository (backend/app/modules): the rule-based structural engine, the
semantic similarity engine, the reasoning engine, the CIA validator, the audit
risk predictor and the hybrid pipeline orchestrator.  Python floats are
modelled as exact rationals (ℚ); the one genuinely irrational computation
(the standard deviation inside the CIA Balance Index) is modelled twice: an
exact real-valued definition (used for the numerical claim about the index)
and a square-root-oracle-parameterised rational definition used inside the
executable pipeline model.  External collaborators (the sentence-embedding
model, the LLM provider, the pickled risk classifier, the framework control
JSON data files) are modelled as explicit parameters, since their behaviour
lives outside the repository.  Python exceptions are modelled with Except.
-/

import Mathlib

namespace ACG

/- ################################################################
   Python-style rounding.

   Python's builtin `round(x, n)` rounds half to even.  `rhe q` is that
   rounding to an integer, and `pyRound d q` is `round(q, d)`.
   ################################################################ -/

def rhe {α : Type*} [LinearOrderedField α] [FloorRing α] (q : α) : ℤ :=
  let f := ⌊q⌋
  if q - f < 1/2 then f
  else if 1/2 < q - f then f + 1
  else if f % 2 = 0 then f else f + 1

def pyRound {α : Type*} [LinearOrderedField α] [FloorRing α] (d : ℕ) (q : α) : α :=
  ((rhe (q * (10:α)^d) : ℤ) : α) / (10:α)^d

theorem rhe_intCast {α : Type*} [LinearOrderedField α] [FloorRing α] (n : ℤ) :
    rhe (n : α) = n := by
  simp [rhe]

theorem rhe_nonneg {α : Type*} [LinearOrderedField α] [FloorRing α]
    {q : α} (h : -(1/2) < q) : 0 ≤ rhe q := by
  unfold rhe
  by_cases h0 : (0:α) ≤ q
  · have hf : (0:ℤ) ≤ ⌊q⌋ := Int.floor_nonneg.2 h0
    dsimp only
    split <;> [skip; split] <;> [exact hf; omega; (split <;> omega)]
  · push_neg at h0
    have hf : ⌊q⌋ = -1 := by
      apply Int.floor_eq_iff.2
      constructor
      · push_cast; linarith
      · push_cast; linarith
    have h2 : ¬ (q - (⌊q⌋ : α) < 1/2) := by
      rw [hf]; push_cast; intro hc; linarith
    dsimp only
    rw [if_neg h2]
    have h3 : (1:α)/2 < q - (⌊q⌋ : α) := by
      rw [hf]; push_cast; linarith
    rw [if_pos h3, hf]
    decide

theorem rhe_le {α : Type*} [LinearOrderedField α] [FloorRing α]
    {q : α} {n : ℤ} (h : q ≤ (n : α)) : rhe q ≤ n := by
  unfold rhe
  have hf : ⌊q⌋ ≤ n := by
    have h2 := Int.floor_le_floor (α := α) h
    rwa [Int.floor_intCast] at h2
  dsimp only
  by_cases h1 : q - (⌊q⌋ : α) < 1/2
  · rw [if_pos h1]; exact hf
  · rw [if_neg h1]
    push_neg at h1
    have hlt : (⌊q⌋ : α) < q := by linarith
    have : ⌊q⌋ < n := by
      have := lt_of_lt_of_le hlt h
      exact_mod_cast this
    split
    · omega
    · split <;> omega

/- ################################################################
   Python string / list helpers used by the engines.
   ################################################################ -/

/-- Python's substring test `needle in hay`, on explicit char lists. -/
def hasSubList (needle : List Char) : List Char → Bool
  | [] => needle.isEmpty
  | c :: rest => needle.isPrefixOf (c :: rest) || hasSubList needle rest

/-- Python's `needle in hay` for strings. -/
def strContains (hay needle : String) : Bool :=
  hasSubList needle.toList hay.toList

/-- Python's `str.lower()` (the source only ever lowercases ASCII text). -/
def pyLower (s : String) : String := String.mk (s.toList.map Char.toLower)

/-- Helper for `pySplitWS`: accumulate the current word (reversed). -/
def splitWSAux : List Char → List Char → List String
  | [], acc => if acc.isEmpty then [] else [String.mk acc.reverse]
  | c :: rest, acc =>
    if c.isWhitespace then
      if acc.isEmpty then splitWSAux rest []
      else String.mk acc.reverse :: splitWSAux rest []
    else splitWSAux rest (c :: acc)

/-- Python's `str.split()` (split on whitespace runs, dropping empties). -/
def pySplitWS (s : String) : List String := splitWSAux s.toList []

/-- Python's `" ".join`. -/
def spaceJoin : List String → String
  | [] => ""
  | [s] => s
  | s :: rest => s ++ " " ++ spaceJoin rest

/- ################################################################
   Python dicts keyed by strings, as association lists.
   `dictInsert` is `d[k] = v` (overwrite keeps the original position,
   as CPython dicts do); `dictBuild f keys` is the loop
   `d = {}; for k in keys: d[k] = f(k)`.
   ################################################################ -/

def dictInsert {α : Type*} (k : String) (v : α) : List (String × α) → List (String × α)
  | [] => [(k, v)]
  | (k', v') :: rest => if k' = k then (k, v) :: rest else (k', v') :: dictInsert k v rest

def dictGet {α : Type*} (k : String) : List (String × α) → Option α
  | [] => none
  | (k', v) :: rest => if k' = k then some v else dictGet k rest

def dictBuild {α : Type*} (f : String → α) (keys : List String) : List (String × α) :=
  keys.foldl (fun d k => dictInsert k (f k) d) []

theorem dictGet_dictInsert {α : Type*} (k k' : String) (v : α) (d : List (String × α)) :
    dictGet k (dictInsert k' v d) = if k' = k then some v else dictGet k d := by
  induction d with
  | nil => simp [dictInsert, dictGet]
  | cons hd tl ih =>
    obtain ⟨k₀, v₀⟩ := hd
    simp only [dictInsert]
    by_cases h : k₀ = k'
    · simp only [if_pos h]
      subst h
      by_cases h2 : k₀ = k <;> simp [dictGet, h2]
    · simp only [if_neg h]
      by_cases h2 : k₀ = k
      · have hk : ¬ k' = k := fun hc => h (h2.trans hc.symm)
        simp [dictGet, h2, if_neg hk]
      · simp [dictGet, h2, ih]

theorem dictGet_foldl_insert {α : Type*} (f : String → α) (k : String)
    (keys : List String) (d0 : List (String × α)) :
    dictGet k (keys.foldl (fun d k' => dictInsert k' (f k') d) d0) =
      if k ∈ keys then some (f k) else dictGet k d0 := by
  induction keys generalizing d0 with
  | nil => simp
  | cons hd tl ih =>
    simp only [List.foldl_cons, ih, dictGet_dictInsert, List.mem_cons]
    by_cases h1 : k ∈ tl
    · simp [h1]
    · by_cases h2 : hd = k
      · simp [h1, h2]
      · have h3 : ¬ k = hd := fun hc => h2 hc.symm
        simp [h1, h2, h3]

theorem dictGet_dictBuild {α : Type*} (f : String → α) (k : String) (keys : List String) :
    dictGet k (dictBuild f keys) = if k ∈ keys then some (f k) else none := by
  simp [dictBuild, dictGet_foldl_insert, dictGet]

/- ################################################################
   Data model (backend/app/modules): clauses, framework catalog
   entries and the Layer-1 structural result.
   Python status strings ("present"/"partial"/"missing") are kept as
   strings, as in the source.
   ################################################################ -/

inductive CIAPillar
  | confidentiality
  | integrity
  | availability
deriving DecidableEq, Repr

def pillarTitle : CIAPillar → String
  | .confidentiality => "Confidentiality"
  | .integrity => "Integrity"
  | .availability => "Availability"

def pillarKey : CIAPillar → String
  | .confidentiality => "confidentiality"
  | .integrity => "integrity"
  | .availability => "availability"

/-- A document clause.  The engines only ever read the "text" entry of the
clause dicts, so the other (heterogeneous) entries are not modelled. -/
structure Clause where
  text : String
deriving DecidableEq, Repr

structure RequiredSection where
  clause : String
  title : String
  keywords : List String
  mandatory : Bool
  cia_pillar : Option CIAPillar
deriving DecidableEq, Repr

structure SectionResult where
  clause : String
  title : String
  status : String
  matched_keywords : List String
  keyword_coverage : ℚ
  cia_pillar : Option CIAPillar
deriving DecidableEq, Repr

structure CIAFlag where
  clause : String
  title : String
  impact : String
deriving DecidableEq, Repr

/-- The `cia_structural_flags` dict, which always has exactly the three
pillar keys in the source. -/
structure CIAFlags where
  confidentiality : List CIAFlag
  integrity : List CIAFlag
  availability : List CIAFlag
deriving DecidableEq, Repr

structure StructuralResult where
  framework : String
  structural_score : ℚ
  total_required : ℕ
  present : ℕ
  /-- the source dict key is "partial", a Lean keyword -/
  partial_count : ℕ
  missing : ℕ
  section_results : List SectionResult
  cia_structural_flags : CIAFlags
deriving DecidableEq, Repr

/- ################################################################
   Framework catalogs (rule_engine/engine.py, mandatory section tables).
   ################################################################ -/

def ISO27001_REQUIRED_SECTIONS : List RequiredSection := [
  { clause := "4.1", title := "Context of the Organization",
    keywords := ["context", "organization", "organizational context", "internal issues", "external issues"],
    mandatory := true, cia_pillar := none },
  { clause := "4.2", title := "Interested Parties",
    keywords := ["interested parties", "stakeholders", "requirements of interested"],
    mandatory := true, cia_pillar := none },
  { clause := "4.3", title := "Scope of the ISMS",
    keywords := ["scope", "isms scope", "information security management system scope", "boundaries"],
    mandatory := true, cia_pillar := none },
  { clause := "5.1", title := "Leadership and Commitment",
    keywords := ["leadership", "management commitment", "top management", "leadership commitment"],
    mandatory := true, cia_pillar := none },
  { clause := "5.2", title := "Information Security Policy",
    keywords := ["information security policy", "security policy", "policy statement"],
    mandatory := true, cia_pillar := some .confidentiality },
  { clause := "5.3", title := "Roles and Responsibilities",
    keywords := ["roles", "responsibilities", "security roles", "information security roles"],
    mandatory := true, cia_pillar := none },
  { clause := "6.1.1", title := "Actions to Address Risks – General",
    keywords := ["risk", "risks and opportunities", "address risks"],
    mandatory := true, cia_pillar := none },
  { clause := "6.1.2", title := "Risk Assessment",
    keywords := ["risk assessment", "risk assessment methodology", "risk criteria",
                 "risk analysis", "risk evaluation", "likelihood", "impact"],
    mandatory := true, cia_pillar := some .integrity },
  { clause := "6.1.3", title := "Risk Treatment",
    keywords := ["risk treatment", "risk treatment plan", "risk mitigation",
                 "risk acceptance", "risk owner"],
    mandatory := true, cia_pillar := some .integrity },
  { clause := "6.2", title := "Information Security Objectives",
    keywords := ["security objectives", "information security objectives", "measurable objectives"],
    mandatory := true, cia_pillar := none },
  { clause := "7.1", title := "Resources",
    keywords := ["resources", "resource allocation", "budget"],
    mandatory := true, cia_pillar := none },
  { clause := "7.2", title := "Competence",
    keywords := ["competence", "training", "awareness training", "skill", "qualification"],
    mandatory := true, cia_pillar := none },
  { clause := "7.3", title := "Awareness",
    keywords := ["awareness", "security awareness", "awareness programme"],
    mandatory := true, cia_pillar := none },
  { clause := "7.5", title := "Documented Information",
    keywords := ["documented information", "documentation", "document control", "records"],
    mandatory := true, cia_pillar := some .integrity },
  { clause := "8.1", title := "Operational Planning and Control",
    keywords := ["operational planning", "operational control"],
    mandatory := true, cia_pillar := none },
  { clause := "8.2", title := "Risk Assessment Execution",
    keywords := ["risk assessment", "perform risk assessment", "risk register"],
    mandatory := true, cia_pillar := some .integrity },
  { clause := "8.3", title := "Risk Treatment Execution",
    keywords := ["risk treatment plan", "implement risk treatment"],
    mandatory := true, cia_pillar := none },
  { clause := "9.1", title := "Monitoring, Measurement, Analysis",
    keywords := ["monitoring", "measurement", "analysis", "evaluation", "performance evaluation"],
    mandatory := true, cia_pillar := some .integrity },
  { clause := "9.2", title := "Internal Audit",
    keywords := ["internal audit", "audit programme", "audit plan"],
    mandatory := true, cia_pillar := none },
  { clause := "9.3", title := "Management Review",
    keywords := ["management review", "review output", "review input"],
    mandatory := true, cia_pillar := none },
  { clause := "10.1", title := "Nonconformity and Corrective Action",
    keywords := ["nonconformity", "corrective action", "corrective"],
    mandatory := true, cia_pillar := none },
  { clause := "10.2", title := "Continual Improvement",
    keywords := ["continual improvement", "continuous improvement", "improvement"],
    mandatory := true, cia_pillar := none },
  { clause := "A.5", title := "Information Security Policies",
    keywords := ["information security policies", "policy for information security",
                 "policies for information security"],
    mandatory := true, cia_pillar := some .confidentiality },
  { clause := "A.6", title := "Organization of Information Security",
    keywords := ["organization of information security", "mobile devices", "teleworking"],
    mandatory := true, cia_pillar := none },
  { clause := "A.7", title := "Human Resource Security",
    keywords := ["human resource", "screening", "terms of employment",
                 "disciplinary process", "termination"],
    mandatory := true, cia_pillar := some .confidentiality },
  { clause := "A.8", title := "Asset Management",
    keywords := ["asset management", "asset inventory", "acceptable use",
                 "classification", "media handling"],
    mandatory := true, cia_pillar := some .confidentiality },
  { clause := "A.9", title := "Access Control",
    keywords := ["access control", "access policy", "user access management",
                 "authentication", "authorization", "privilege"],
    mandatory := true, cia_pillar := some .confidentiality },
  { clause := "A.10", title := "Cryptography",
    keywords := ["cryptography", "encryption", "cryptographic controls", "key management"],
    mandatory := true, cia_pillar := some .confidentiality },
  { clause := "A.12", title := "Operations Security",
    keywords := ["operations security", "change management", "capacity management",
                 "malware", "backup", "logging", "monitoring"],
    mandatory := true, cia_pillar := some .availability },
  { clause := "A.13", title := "Communications Security",
    keywords := ["communications security", "network security", "information transfer",
                 "network controls"],
    mandatory := true, cia_pillar := some .confidentiality },
  { clause := "A.16", title := "Incident Management",
    keywords := ["incident management", "incident response", "security incident",
                 "incident reporting", "incident procedure"],
    mandatory := true, cia_pillar := some .availability },
  { clause := "A.17", title := "Business Continuity",
    keywords := ["business continuity", "disaster recovery", "continuity plan",
                 "bcp", "drp", "recovery"],
    mandatory := true, cia_pillar := some .availability },
  { clause := "A.18", title := "Compliance",
    keywords := ["compliance", "legal requirements", "regulatory", "privacy",
                 "intellectual property"],
    mandatory := true, cia_pillar := none }
]

def NIST_CSF_REQUIRED_SECTIONS : List RequiredSection := [
  { clause := "GV.OC", title := "Organizational Context",
    keywords := ["organizational context", "mission", "stakeholder expectations"],
    mandatory := true, cia_pillar := none },
  { clause := "GV.RM", title := "Risk Management Strategy",
    keywords := ["risk management strategy", "risk appetite", "risk tolerance"],
    mandatory := true, cia_pillar := some .integrity },
  { clause := "GV.SC", title := "Supply Chain Risk Management",
    keywords := ["supply chain", "third party", "vendor risk"],
    mandatory := true, cia_pillar := none },
  { clause := "ID.AM", title := "Asset Management",
    keywords := ["asset management", "asset inventory", "hardware", "software inventory"],
    mandatory := true, cia_pillar := some .availability },
  { clause := "ID.RA", title := "Risk Assessment",
    keywords := ["risk assessment", "threat", "vulnerability", "likelihood", "impact"],
    mandatory := true, cia_pillar := some .integrity },
  { clause := "PR.AA", title := "Identity Management & Access Control",
    keywords := ["identity management", "access control", "authentication",
                 "credential", "privilege"],
    mandatory := true, cia_pillar := some .confidentiality },
  { clause := "PR.AT", title := "Awareness and Training",
    keywords := ["awareness", "training", "security training"],
    mandatory := true, cia_pillar := none },
  { clause := "PR.DS", title := "Data Security",
    keywords := ["data security", "data protection", "encryption", "data at rest",
                 "data in transit"],
    mandatory := true, cia_pillar := some .confidentiality },
  { clause := "PR.PS", title := "Platform Security",
    keywords := ["platform security", "configuration", "hardening", "baseline"],
    mandatory := true, cia_pillar := some .integrity },
  { clause := "DE.CM", title := "Continuous Monitoring",
    keywords := ["continuous monitoring", "monitoring", "detection", "anomaly",
                 "logging", "audit log"],
    mandatory := true, cia_pillar := some .integrity },
  { clause := "DE.AE", title := "Adverse Event Analysis",
    keywords := ["adverse event", "event analysis", "alert", "indicator"],
    mandatory := true, cia_pillar := some .availability },
  { clause := "RS.MA", title := "Incident Management",
    keywords := ["incident management", "incident response", "response plan"],
    mandatory := true, cia_pillar := some .availability },
  { clause := "RS.CO", title := "Incident Communication",
    keywords := ["incident communication", "notification", "reporting"],
    mandatory := true, cia_pillar := none },
  { clause := "RC.RP", title := "Recovery Planning",
    keywords := ["recovery plan", "disaster recovery", "business continuity",
                 "restoration"],
    mandatory := true, cia_pillar := some .availability }
]

def GDPR_REQUIRED_SECTIONS : List RequiredSection := [
  { clause := "Art.5", title := "Principles of Data Processing",
    keywords := ["lawfulness", "fairness", "transparency", "purpose limitation",
                 "data minimisation", "accuracy", "storage limitation"],
    mandatory := true, cia_pillar := some .confidentiality },
  { clause := "Art.6", title := "Lawful Basis for Processing",
    keywords := ["lawful basis", "consent", "legitimate interest", "legal obligation",
                 "contractual necessity"],
    mandatory := true, cia_pillar := some .confidentiality },
  { clause := "Art.13", title := "Transparency / Privacy Notice",
    keywords := ["privacy notice", "transparency", "data subject information",
                 "inform data subject"],
    mandatory := true, cia_pillar := some .confidentiality },
  { clause := "Art.15", title := "Right of Access",
    keywords := ["right of access", "subject access request", "data access"],
    mandatory := true, cia_pillar := some .availability },
  { clause := "Art.17", title := "Right to Erasure",
    keywords := ["right to erasure", "right to be forgotten", "data deletion"],
    mandatory := true, cia_pillar := some .confidentiality },
  { clause := "Art.25", title := "Data Protection by Design",
    keywords := ["data protection by design", "privacy by design", "by default"],
    mandatory := true, cia_pillar := some .confidentiality },
  { clause := "Art.30", title := "Records of Processing",
    keywords := ["records of processing", "processing register", "processing activities"],
    mandatory := true, cia_pillar := some .integrity },
  { clause := "Art.32", title := "Security of Processing",
    keywords := ["security of processing", "technical measures", "organisational measures",
                 "pseudonymisation", "encryption"],
    mandatory := true, cia_pillar := some .confidentiality },
  { clause := "Art.33", title := "Breach Notification to Authority",
    keywords := ["breach notification", "data breach", "notify authority", "72 hours"],
    mandatory := true, cia_pillar := some .availability },
  { clause := "Art.35", title := "Data Protection Impact Assessment",
    keywords := ["data protection impact assessment", "dpia", "impact assessment",
                 "privacy impact"],
    mandatory := true, cia_pillar := some .integrity },
  { clause := "Art.37", title := "Data Protection Officer",
    keywords := ["data protection officer", "dpo"],
    mandatory := true, cia_pillar := none }
]

def ISO9001_REQUIRED_SECTIONS : List RequiredSection := [
  { clause := "4.1", title := "Context of the Organization",
    keywords := ["context", "organization context", "internal issues", "external issues"],
    mandatory := true, cia_pillar := none },
  { clause := "5.2", title := "Quality Policy",
    keywords := ["quality policy", "policy statement"],
    mandatory := true, cia_pillar := none },
  { clause := "6.1", title := "Actions to Address Risks",
    keywords := ["risk", "opportunity", "risk-based thinking"],
    mandatory := true, cia_pillar := none },
  { clause := "6.2", title := "Quality Objectives",
    keywords := ["quality objectives", "measurable objectives"],
    mandatory := true, cia_pillar := none },
  { clause := "7.1", title := "Resources",
    keywords := ["resources", "infrastructure", "environment for operation"],
    mandatory := true, cia_pillar := none },
  { clause := "7.2", title := "Competence",
    keywords := ["competence", "training", "education", "experience"],
    mandatory := true, cia_pillar := none },
  { clause := "8.1", title := "Operational Planning and Control",
    keywords := ["operational planning", "operational control", "process"],
    mandatory := true, cia_pillar := none },
  { clause := "9.1", title := "Monitoring, Measurement, Analysis",
    keywords := ["monitoring", "measurement", "analysis", "evaluation"],
    mandatory := true, cia_pillar := none },
  { clause := "9.2", title := "Internal Audit",
    keywords := ["internal audit", "audit programme"],
    mandatory := true, cia_pillar := none },
  { clause := "9.3", title := "Management Review",
    keywords := ["management review"],
    mandatory := true, cia_pillar := none },
  { clause := "10.2", title := "Nonconformity and Corrective Action",
    keywords := ["nonconformity", "corrective action"],
    mandatory := true, cia_pillar := none },
  { clause := "10.3", title := "Continual Improvement",
    keywords := ["continual improvement", "continuous improvement"],
    mandatory := true, cia_pillar := none }
]

def FRAMEWORK_SECTIONS : List (String × List RequiredSection) := [
  ("iso27001", ISO27001_REQUIRED_SECTIONS),
  ("nist", NIST_CSF_REQUIRED_SECTIONS),
  ("gdpr", GDPR_REQUIRED_SECTIONS),
  ("iso9001", ISO9001_REQUIRED_SECTIONS)
]

/- ################################################################
   Layer 1: RuleBasedEngine.analyze (rule_engine/engine.py).
   The per-section loop body is `evalSection`; the counter increments of the
   source loop are expressed as countP over the mapped section results.
   ################################################################ -/

/-- One iteration of the `for req in required` loop of
`RuleBasedEngine.analyze`: keyword matching, ratio, and classification. -/
def evalSection (text_lower all_clause_text : String) (req : RequiredSection) :
    SectionResult :=
  let matched_kw := req.keywords.filter
    (fun kw => strContains text_lower kw || strContains all_clause_text kw)
  let ratio : ℚ :=
    if req.keywords.length = 0 then 0
    else (matched_kw.length : ℚ) / (req.keywords.length : ℚ)
  let status :=
    if 1/2 ≤ ratio then "present"
    else if 0 < ratio then "partial"
    else "missing"
  { clause := req.clause, title := req.title, status := status,
    matched_keywords := matched_kw,
    keyword_coverage := pyRound 1 (ratio * 100),
    cia_pillar := req.cia_pillar }

def mkCIAFlag (p : CIAPillar) (req : RequiredSection) : CIAFlag :=
  let t := req.title
  let pt := pillarTitle p
  { clause := req.clause, title := t,
    impact := s!"Missing {t} weakens {pt} pillar" }

def emptyStructural (framework : String) : StructuralResult :=
  { framework := framework, structural_score := 0, total_required := 0,
    present := 0, partial_count := 0, missing := 0, section_results := [],
    cia_structural_flags := ⟨[], [], []⟩ }

def ruleAnalyzeSections (full_text : String) (clauses : List Clause)
    (framework : String) (required : List RequiredSection) : StructuralResult :=
  let text_lower := pyLower full_text
  let all_clause_text := pyLower (spaceJoin (clauses.map Clause.text))
  let srs := required.map (evalSection text_lower all_clause_text)
  let presentN := srs.countP (fun s => s.status = "present")
  let partialN := srs.countP (fun s => s.status = "partial")
  let missingN := srs.countP (fun s => s.status = "missing")
  let flagsFor := fun (p : CIAPillar) =>
    (required.filter (fun req =>
        decide (req.cia_pillar = some p) &&
        decide ((evalSection text_lower all_clause_text req).status = "missing"))).map
      (mkCIAFlag p)
  let total := required.length
  let score : ℚ :=
    if total = 0 then 0
    else pyRound 2 (((presentN : ℚ) * 1 + (partialN : ℚ) * 0.5) / (total : ℚ) * 100)
  { framework := framework, structural_score := score, total_required := total,
    present := presentN, partial_count := partialN, missing := missingN,
    section_results := srs,
    cia_structural_flags :=
      ⟨flagsFor .confidentiality, flagsFor .integrity, flagsFor .availability⟩ }

/-- `RuleBasedEngine.analyze`. -/
def rule_analyze (full_text : String) (clauses : List Clause)
    (framework : String) : StructuralResult :=
  let required := (dictGet framework FRAMEWORK_SECTIONS).getD []
  if required.isEmpty then emptyStructural framework
  else ruleAnalyzeSections full_text clauses framework required

/- ################################################################
   Layer 2: SemanticSimilarityEngine (semantic_engine/engine.py).

   The sentence-embedding model is external: it is modelled as an optional
   similarity oracle  sim : clause text → control text → ℚ  standing for the
   cosine similarity of the two embeddings (`none` = model failed to load).
   The framework control lists come from JSON data files that are not part
   of the repository, so they are passed as a parameter as well.
   ################################################################ -/

def STRONG_THRESHOLD : ℚ := 0.70
def PARTIAL_THRESHOLD : ℚ := 0.45

/-- Python's `s[:n]` on a string (characters). -/
def pyTake (n : ℕ) (s : String) : String := String.mk (s.toList.take n)

structure Control where
  id : Option String
  title : Option String
  description : Option String
  category : Option String
  priority : Option String
deriving DecidableEq, Repr

/-- `c.get("description", c.get("title", ""))`. -/
def controlDesc (c : Control) : String := c.description.getD (c.title.getD "")

structure ClauseMatch where
  clause_text : String
  best_control_id : String
  best_control_title : String
  similarity : ℚ
  compliance_level : String
deriving DecidableEq, Repr

structure MissingControl where
  control_id : String
  title : String
  category : String
  priority : String
deriving DecidableEq, Repr

structure SemanticResult where
  framework : String
  semantic_score : ℚ
  /-- counts are ints: on the fallback path `weak_count` can go negative -/
  strong_count : ℤ
  partial_count : ℤ
  weak_count : ℤ
  total_clauses : ℕ
  matched_controls : ℕ
  total_controls : ℕ
  compliance_percentage : ℚ
  clause_matches : List ClauseMatch
  control_coverage : List (String × ℚ)
  missing_controls : List MissingControl
  note : Option String
deriving DecidableEq, Repr

/-- The inline threshold classification of `analyze`'s per-clause loop. -/
def classifySimilarity (s : ℚ) : String :=
  if STRONG_THRESHOLD ≤ s then "strong"
  else if PARTIAL_THRESHOLD ≤ s then "partial"
  else "weak"

/-- `np.argmax`: index of the first occurrence of the maximum. -/
def argmaxFirst (l : List ℚ) : ℕ :=
  (l.foldl
    (fun (acc : ℕ × ℕ × ℚ) v =>
      if acc.2.2 < v then (acc.1 + 1, acc.1, v) else (acc.1 + 1, acc.2.1, acc.2.2))
    (0, 0, l.headD 0)).2.1

def defaultControl : Control := ⟨none, none, none, none, none⟩

/-- One iteration of the per-clause loop of the embedding path of
`SemanticSimilarityEngine.analyze`. -/
def mkClauseMatch (sim : String → String → ℚ) (controls : List Control)
    (ctext : String) : ClauseMatch :=
  let sims := controls.map (fun c => sim ctext (controlDesc c))
  let best_idx := argmaxFirst sims
  let best_sim := sims.getD best_idx 0
  let ctrl := controls.getD best_idx defaultControl
  { clause_text := pyTake 120 ctext,
    best_control_id := ctrl.id.getD "?",
    best_control_title := ctrl.title.getD "?",
    similarity := pyRound 4 best_sim,
    compliance_level := classifySimilarity best_sim }

/-- `ctrl.get("id", f"ctrl_{j}")`. -/
def cidAt (j : ℕ) (c : Control) : String := c.id.getD ("ctrl_" ++ toString j)

def mkMissingControl (c : Control) : MissingControl :=
  { control_id := c.id.getD "?", title := c.title.getD "?",
    category := c.category.getD "General", priority := c.priority.getD "Medium" }

/-- Embedding path of `SemanticSimilarityEngine.analyze` (model loaded,
controls present, clauses present). -/
def semanticEmbedAnalysis (sim : String → String → ℚ) (controls : List Control)
    (clauses : List Clause) (framework : String) : SemanticResult :=
  let clause_texts := clauses.map Clause.text
  let cmatches := clause_texts.map (mkClauseMatch sim controls)
  let strong := cmatches.countP (fun m => m.compliance_level = "strong")
  let partialN := cmatches.countP (fun m => m.compliance_level = "partial")
  let weak := cmatches.countP (fun m => m.compliance_level = "weak")
  let controlMaxFor := fun (c : Control) =>
    let col := clause_texts.map (fun ct => sim ct (controlDesc c))
    col.foldl max (col.headD 0)
  let enumC := controls.enum
  let control_coverage :=
    enumC.foldl (fun d jc => dictInsert (cidAt jc.1 jc.2) (pyRound 4 (controlMaxFor jc.2)) d) []
  let matched_ids :=
    ((enumC.filter (fun jc => decide (PARTIAL_THRESHOLD ≤ controlMaxFor jc.2))).map
      (fun jc => cidAt jc.1 jc.2)).dedup
  let missing :=
    ((enumC.filter (fun jc => !(matched_ids.contains (cidAt jc.1 jc.2)))).map
      (fun jc => jc.2)).map mkMissingControl
  let total := clause_texts.length
  let semantic_score : ℚ :=
    if total = 0 then 0
    else pyRound 2 (((strong : ℚ) * 1 + (partialN : ℚ) * 0.5) / (total : ℚ) * 100)
  { framework := framework, semantic_score := semantic_score,
    strong_count := strong, partial_count := partialN, weak_count := weak,
    total_clauses := total, matched_controls := matched_ids.length,
    total_controls := controls.length,
    compliance_percentage :=
      if controls.length = 0 then 0
      else pyRound 2 ((matched_ids.length : ℚ) / (controls.length : ℚ) * 100),
    clause_matches := cmatches, control_coverage := control_coverage,
    missing_controls := missing, note := none }

/-- `SemanticSimilarityEngine._fallback_analysis` (keyword overlap). -/
def fallbackAnalysis (controls : List Control) (clauses : List Clause)
    (framework : String) : SemanticResult :=
  let all_text := pyLower (spaceJoin (clauses.map Clause.text))
  let ctrlMatched := fun (c : Control) =>
    let desc := pyLower (controlDesc c)
    let keywords := (pySplitWS desc).take 6
    keywords.any (fun kw => decide (kw.length > 3) && strContains all_text kw)
  let matched_ids := ((controls.filter ctrlMatched).map (fun c => c.id.getD "")).dedup
  let missing :=
    (controls.filter (fun c => !(matched_ids.contains (c.id.getD "")))).map mkMissingControl
  let total := if clauses.length = 0 then 1 else clauses.length
  let denom := if controls.length = 0 then 1 else controls.length
  let score := pyRound 2 ((matched_ids.length : ℚ) / (denom : ℚ) * 100)
  { framework := framework, semantic_score := score,
    strong_count := 0, partial_count := (matched_ids.length : ℤ),
    weak_count := (total : ℤ) - (matched_ids.length : ℤ),
    total_clauses := total, matched_controls := matched_ids.length,
    total_controls := controls.length, compliance_percentage := score,
    clause_matches := [], control_coverage := [], missing_controls := missing,
    note := some "Fallback keyword analysis (Sentence-BERT unavailable)" }

/-- `SemanticSimilarityEngine._empty_result`. -/
def emptySemantic (framework : String) : SemanticResult :=
  { framework := framework, semantic_score := 0, strong_count := 0,
    partial_count := 0, weak_count := 0, total_clauses := 0,
    matched_controls := 0, total_controls := 0, compliance_percentage := 0,
    clause_matches := [], control_coverage := [], missing_controls := [],
    note := none }

/-- `SemanticSimilarityEngine.analyze`.  The fallback triggers when the model
is unavailable or the framework's control-embedding matrix is empty (which
happens exactly when the control list is empty). -/
def semantic_analyze (simModel : Option (String → String → ℚ))
    (controls : List Control) (clauses : List Clause) (framework : String) :
    SemanticResult :=
  match simModel with
  | none => fallbackAnalysis controls clauses framework
  | some sim =>
    if controls.isEmpty then fallbackAnalysis controls clauses framework
    else if clauses.isEmpty then emptySemantic framework
    else semanticEmbedAnalysis sim controls clauses framework

/- ################################################################
   CIA Validator (cia_validator/validator.py).

   `np.std` computes the population standard deviation, an irrational
   quantity.  Two models are given: `calculate_cia_balance_index` over ℝ
   with the exact `Real.sqrt` (used for the numerical claims), and
   `calcBalanceIdxQ`, identical but parameterised by a rational
   square-root oracle standing for the float `np.sqrt`, so that the
   pipeline model stays executable.
   ################################################################ -/

def CIA_KEYWORDS_CONF : List String :=
  ["confidential", "privacy", "secret", "classified", "access control",
   "authentication", "authorization", "encryption", "data protection",
   "information disclosure", "need-to-know", "clearance", "sensitive",
   "personal data", "pii", "gdpr", "data privacy"]

def CIA_KEYWORDS_INTEG : List String :=
  ["integrity", "accuracy", "validity", "completeness", "consistency",
   "verification", "validation", "audit trail", "change control",
   "version control", "tampering", "modification", "alteration",
   "digital signature", "hash", "checksum", "quality", "correctness"]

def CIA_KEYWORDS_AVAIL : List String :=
  ["availability", "uptime", "accessible", "redundancy", "backup",
   "disaster recovery", "business continuity", "failover", "resilience",
   "recovery time", "rto", "rpo", "downtime", "service level",
   "performance", "reliability", "fault tolerance", "high availability"]

/-- A dict with the three pillar keys and natural-number values. -/
structure CIACounts where
  confidentiality : ℕ
  integrity : ℕ
  availability : ℕ
deriving DecidableEq, Repr

/-- A dict with the three pillar keys and float values. -/
structure CIAQ where
  confidentiality : ℚ
  integrity : ℚ
  availability : ℚ
deriving DecidableEq, Repr

def covOf (c : CIAQ) : CIAPillar → ℚ
  | .confidentiality => c.confidentiality
  | .integrity => c.integrity
  | .availability => c.availability

structure CIAClassification where
  clause : String
  primary_category : String
  cia_scores : CIACounts
  cia_percentages : CIAQ
  is_multi_category : Bool
  categories : List String
deriving DecidableEq, Repr

def ciaScoreFor (keywords : List String) (clause_lower : String) : ℕ :=
  keywords.countP (fun kw => strContains clause_lower kw)

/-- `CIAValidator.classify_clause_cia`.  `primary_category` is
`max(cia_scores.items(), key=value)`: Python's `max` keeps the first
maximal item, and the dict iterates confidentiality, integrity,
availability in insertion order. -/
def classifyClauseCIA (clause_text : String) : CIAClassification :=
  let clause_lower := pyLower clause_text
  let s_c := ciaScoreFor CIA_KEYWORDS_CONF clause_lower
  let s_i := ciaScoreFor CIA_KEYWORDS_INTEG clause_lower
  let s_a := ciaScoreFor CIA_KEYWORDS_AVAIL clause_lower
  let total := s_c + s_i + s_a
  let percentages : CIAQ :=
    if 0 < total then
      ⟨(s_c : ℚ) / (total : ℚ) * 100, (s_i : ℚ) / (total : ℚ) * 100,
       (s_a : ℚ) / (total : ℚ) * 100⟩
    else ⟨33.33, 33.33, 33.34⟩
  let primary :=
    if s_i ≤ s_c ∧ s_a ≤ s_c then "confidentiality"
    else if s_a ≤ s_i then "integrity"
    else "availability"
  let non_zero :=
    (if 0 < s_c then ["confidentiality"] else []) ++
    (if 0 < s_i then ["integrity"] else []) ++
    (if 0 < s_a then ["availability"] else [])
  { clause :=
      if 100 < clause_text.toList.length then pyTake 100 clause_text ++ "..."
      else clause_text,
    primary_category := primary,
    cia_scores := ⟨s_c, s_i, s_a⟩,
    cia_percentages := percentages,
    is_multi_category := 1 < non_zero.length,
    categories := non_zero }

/-- Population variance of three values, as `np.std` squares it. -/
def varianceQ3 (a b c : ℚ) : ℚ :=
  let μ := (a + b + c) / 3
  ((a - μ) ^ 2 + (b - μ) ^ 2 + (c - μ) ^ 2) / 3

/-- `CIAValidator.calculate_cia_balance_index` with the float `np.sqrt`
abstracted as a rational oracle (used inside the executable pipeline). -/
def calcBalanceIdxQ (sqrtQ : ℚ → ℚ) (cov : CIAQ) : ℚ :=
  let std_dev := sqrtQ (varianceQ3 cov.confidentiality cov.integrity cov.availability)
  let normalized_std_dev := std_dev / (47.14 : ℚ) * 100
  pyRound 2 (100 - normalized_std_dev)

/-- Population standard deviation of three reals (`np.std`), exactly. -/
noncomputable def npStd3 (a b c : ℝ) : ℝ :=
  let μ := (a + b + c) / 3
  Real.sqrt (((a - μ) ^ 2 + (b - μ) ^ 2 + (c - μ) ^ 2) / 3)

/-- `CIAValidator.calculate_cia_balance_index`, exactly over ℝ: the three
dict values are the coverage percentages of the three pillars. -/
noncomputable def calculate_cia_balance_index (c i a : ℝ) : ℝ :=
  let std_dev := npStd3 c i a
  let normalized_std_dev := std_dev / (47.14 : ℝ) * 100
  pyRound 2 (100 - normalized_std_dev)

def balanceRating (bi : ℚ) : String :=
  if 85 ≤ bi then "Excellent"
  else if 70 ≤ bi then "Good"
  else if 50 ≤ bi then "Fair"
  else "Poor"

structure CIAAnalysis where
  total_clauses : ℕ
  cia_coverage : CIAQ
  cia_distribution : CIACounts
  cia_balance_index : ℚ
  balance_rating : String
deriving DecidableEq, Repr

/-- `CIAValidator.analyze_document_cia` returns an error dict
`{"error": ..., "cia_coverage": zeros}` on an empty clause list and the
full analysis otherwise.  The `heatmap`, `imbalances` and
`recommendations` entries are presentation/advice payloads consumed by no
other module and are not modelled. -/
inductive CIAOutcome where
  | err : CIAOutcome
  | ok : CIAAnalysis → CIAOutcome
deriving DecidableEq, Repr

/-- `.get("cia_coverage", ...)`: the error dict carries all-zero coverage. -/
def ciaCoverageOf : CIAOutcome → CIAQ
  | .err => ⟨0, 0, 0⟩
  | .ok r => r.cia_coverage

/-- `.get("cia_balance_index", 50)` as the pipeline reads it. -/
def ciaBalanceOf : Option CIAOutcome → ℚ
  | none => 50
  | some .err => 50
  | some (.ok r) => r.cia_balance_index

/-- `CIAValidator.analyze_document_cia`. -/
def analyze_document_cia (sqrtQ : ℚ → ℚ) (clauses : List Clause) : CIAOutcome :=
  if clauses.isEmpty then .err
  else
    let classified := clauses.map (fun c => classifyClauseCIA c.text)
    let d_c := classified.countP (fun cl => cl.primary_category = "confidentiality")
    let d_i := classified.countP (fun cl => cl.primary_category = "integrity")
    let d_a := classified.countP (fun cl => cl.primary_category = "availability")
    let total := clauses.length
    let coverage : CIAQ :=
      ⟨pyRound 2 ((d_c : ℚ) / (total : ℚ) * 100),
       pyRound 2 ((d_i : ℚ) / (total : ℚ) * 100),
       pyRound 2 ((d_a : ℚ) / (total : ℚ) * 100)⟩
    let bi := calcBalanceIdxQ sqrtQ coverage
    .ok { total_clauses := total, cia_coverage := coverage,
          cia_distribution := ⟨d_c, d_i, d_a⟩, cia_balance_index := bi,
          balance_rating := balanceRating bi }

/- ################################################################
   Layer 3: ReasoningEngine (reasoning_engine/engine.py).

   The LLM provider is external: it is modelled as
   `Option (String → Option String)` — `none` when `llm_provider.is_available`
   is false; `some gen` otherwise, where `gen prompt` returns the response
   text, or `none` when the provider call raises (timeout/API failure).
   ################################################################ -/

def pyUpper (s : String) : String := String.mk (s.toList.map Char.toUpper)

structure GapExplanation where
  clause : String
  title : String
  status : String
  explanation : String
  cia_impact : Option CIAPillar
deriving DecidableEq, Repr

/-- The `gap_explanations` list holds raw LLM text on the LLM path and
structured entries on the rule-based path. -/
inductive GapEntry where
  | text : String → GapEntry
  | item : GapExplanation → GapEntry
deriving DecidableEq, Repr

structure CIAImpactEntry where
  status : String
  missing_clauses : List String
  impact : String
deriving DecidableEq, Repr

structure RewrittenClause where
  original : String
  improved : String
  matched_control : String
deriving DecidableEq, Repr

structure ReasoningResult where
  reasoning_confidence : ℚ
  executive_summary : String
  gap_explanations : List GapEntry
  improvement_suggestions : List String
  rewritten_clauses : List RewrittenClause
  cia_impact_summary : List (String × CIAImpactEntry)
  source : String
deriving DecidableEq, Repr

/- ── Best-effort confidence extraction:
     re.search(r'confidence[:\s]*(\d{1,3})', text, re.IGNORECASE) ── -/

def digitsVal (ds : List Char) : ℕ :=
  ds.foldl (fun n c => n * 10 + (c.toNat - '0'.toNat)) 0

/-- The `[:\s]*` part of the pattern (greedy, no digit can backtrack it). -/
def skipColonWS (l : List Char) : List Char :=
  l.dropWhile (fun c => c == ':' || c.isWhitespace)

/-- Leftmost match of `confidence[:\s]*(\d{1,3})` on lower-cased text. -/
def confSearch : List Char → Option ℕ
  | [] => none
  | c :: rest =>
    if "confidence".toList.isPrefixOf (c :: rest) then
      let after := skipColonWS ((c :: rest).drop 10)
      let ds := (after.takeWhile Char.isDigit).take 3
      if ds.isEmpty then confSearch rest else some (digitsVal ds)
    else confSearch rest

/-- `ReasoningEngine._parse_llm_response`. -/
def parse_llm_response (text : String) : ReasoningResult :=
  let confidence := ((confSearch (pyLower text).toList).getD 65 : ℕ)
  { reasoning_confidence := ((min confidence 100 : ℕ) : ℚ),
    executive_summary := pyTake 500 text,
    gap_explanations := [GapEntry.text text],
    improvement_suggestions := [], rewritten_clauses := [],
    cia_impact_summary := [], source := "llm" }

/-- `ReasoningEngine._rule_based_from_context` (LLM raised mid-call). -/
def rule_based_from_context (framework : String) : ReasoningResult :=
  { reasoning_confidence := 50,
    executive_summary :=
      s!"Analysis of {framework} compliance shows gaps that require attention.",
    gap_explanations := [], improvement_suggestions := [],
    rewritten_clauses := [], cia_impact_summary := [],
    source := "rule_based_fallback" }

/-- `ReasoningEngine._rewrite_clause`: the replacement dict, in insertion
order (each `str.replace` replaces every occurrence). -/
def REWRITE_RULES : List (String × String) :=
  [("should", "shall"), ("may", "must"), ("could", "shall"), ("might", "must"),
   ("where possible", "as a mandatory requirement"),
   ("if feasible", "as a requirement"),
   ("efforts will be made", "the organization shall ensure"),
   ("should consider", "shall implement")]

def rewriteClause (original : String) : String :=
  let text := REWRITE_RULES.foldl (fun t wr => t.replace wr.1 wr.2) original
  if text.toList.getLast? = some '.' then text else text ++ "."

/-- `ReasoningEngine._calc_confidence`. -/
def calc_confidence (struct_score sem_score : ℚ) (n_gaps : ℕ) : ℚ :=
  let base := struct_score * 0.4 + sem_score * 0.4
  let penalty : ℕ := min (n_gaps * 3) 30
  pyRound 2 (max 0 (min 100 (base + 20 - (penalty : ℚ))))

def structuralMissingOf (l1 : StructuralResult) : List SectionResult :=
  l1.section_results.filter (fun s => s.status == "missing" || s.status == "partial")

def semanticWeakOf (l2 : SemanticResult) : List ClauseMatch :=
  l2.clause_matches.filter
    (fun m => m.compliance_level == "weak" || m.compliance_level == "partial")

/-- `ReasoningEngine._build_context` assembles a free-text gap summary that
is consumed only by the external LLM oracle (which every theorem below
quantifies over), so the exact line formatting of the source is abbreviated
to the essentials. -/
def buildContext (l1 : StructuralResult) (l2 : SemanticResult)
    (_cia : Option CIAOutcome) (framework : String) : String :=
  let fwU := pyUpper framework
  let ss := toString l1.structural_score
  let ms := toString l2.semantic_score
  s!"Framework: {fwU}\nStructural Score: {ss}\nSemantic Score: {ms}"

def llmPrompt (context : String) : String :=
  "You are an ISO compliance expert. Based on the gap analysis below, " ++
  "provide an executive summary, gap explanations, improvements, rewrites " ++
  "and a confidence score (0-100).\n\n=== GAP ANALYSIS ===\n" ++ context ++ "\n"

/-- `ReasoningEngine._rule_based_reasoning`. -/
def rule_based_reasoning (structural_missing : List SectionResult)
    (semantic_weak : List ClauseMatch) (missing_controls : List MissingControl)
    (l1 : StructuralResult) (l2 : SemanticResult) (cia : Option CIAOutcome)
    (framework : String) : ReasoningResult :=
  let struct_score := l1.structural_score
  let sem_score := l2.semantic_score
  let avg := (struct_score + sem_score) / 2
  let fwU := pyUpper framework
  let ss := toString struct_score
  let ms := toString sem_score
  let exec_summary :=
    if 80 ≤ avg then
      s!"The document demonstrates strong alignment with {fwU} requirements. " ++
      s!"Structural compliance is at {ss}% with semantic similarity at {ms}%. " ++
      "Minor gaps should be addressed to achieve full compliance."
    else if 50 ≤ avg then
      s!"The document shows moderate compliance with {fwU}. " ++
      s!"Structural score is {ss}% and semantic score is {ms}%. " ++
      "Several mandatory sections require strengthening or addition."
    else
      s!"Significant gaps detected in {fwU} compliance. " ++
      s!"Structural coverage is only {ss}% with semantic alignment at {ms}%. " ++
      "Comprehensive remediation is required before audit readiness."
  let gap_explanations := (structural_missing.take 6).map (fun s =>
    let cia_note :=
      match s.cia_pillar with
      | some p =>
        let pt := pillarTitle p
        s!" This weakens the **{pt}** pillar of the CIA triad."
      | none => ""
    let cl := s.clause
    let t := s.title
    let st := s.status
    let kc := toString s.keyword_coverage
    GapEntry.item
      { clause := s.clause, title := s.title, status := s.status,
        explanation :=
          s!"Clause {cl} ({t}) is {st}. Keyword coverage is only {kc}%." ++ cia_note,
        cia_impact := s.cia_pillar })
  let improvements :=
    (if 0 < l1.missing then
      let missing_titles :=
        ((structural_missing.filter (fun s => s.status == "missing")).map
          (fun s => s.title)).take 3
      let mt := String.intercalate ", " missing_titles
      [s!"Add dedicated sections for: {mt}"]
    else []) ++
    (if 3 < l2.weak_count then
      ["Rewrite weak policy statements using mandatory language " ++
       "(shall, must, will) instead of vague terms (may, should consider)."]
    else []) ++
    (if missing_controls.isEmpty then []
    else
      let mc_ids := (missing_controls.take 3).map (fun mc => mc.control_id)
      let mi := String.intercalate ", " mc_ids
      [s!"Address missing controls: {mi}"])
  let flagsOf := fun (p : CIAPillar) =>
    match p with
    | .confidentiality => l1.cia_structural_flags.confidentiality
    | .integrity => l1.cia_structural_flags.integrity
    | .availability => l1.cia_structural_flags.availability
  let baseImpact := fun (p : CIAPillar) =>
    let flags := flagsOf p
    if flags.isEmpty then
      ({ status := "covered", missing_clauses := [], impact := "" } : CIAImpactEntry)
    else
      let n := flags.length
      let pt := pillarTitle p
      { status := "at_risk", missing_clauses := flags.map (fun f => f.clause),
        impact := s!"Absence of {n} section(s) weakens {pt} pillar." }
  let cia_impact0 : List (String × CIAImpactEntry) :=
    [("confidentiality", baseImpact .confidentiality),
     ("integrity", baseImpact .integrity),
     ("availability", baseImpact .availability)]
  let cia_impact :=
    match cia with
    | none => cia_impact0
    | some co =>
      let cov := ciaCoverageOf co
      [CIAPillar.confidentiality, CIAPillar.integrity, CIAPillar.availability].foldl
        (fun d p =>
          let val := covOf cov p
          if val < 25 then
            let overwrite :=
              match dictGet (pillarKey p) d with
              | some e => e.status != "at_risk"
              | none => true
            if overwrite then
              let pt := pillarTitle p
              let vs := toString val
              dictInsert (pillarKey p)
                { status := "at_risk", missing_clauses := [],
                  impact := s!"{pt} coverage is critically low at {vs}%." } d
            else d
          else d)
        cia_impact0
  let rewritten := (semantic_weak.take 2).map (fun wc =>
    { original := wc.clause_text, improved := rewriteClause wc.clause_text,
      matched_control := wc.best_control_id })
  let reasoning_conf := calc_confidence struct_score sem_score gap_explanations.length
  { reasoning_confidence := reasoning_conf, executive_summary := exec_summary,
    gap_explanations := gap_explanations,
    improvement_suggestions := improvements, rewritten_clauses := rewritten,
    cia_impact_summary := cia_impact, source := "rule_based" }

/-- `ReasoningEngine.analyze`. -/
def reasoning_analyze (llm : Option (String → Option String))
    (l1 : StructuralResult) (l2 : SemanticResult) (cia : Option CIAOutcome)
    (framework : String) : ReasoningResult :=
  let structural_missing := structuralMissingOf l1
  let semantic_weak := semanticWeakOf l2
  let missing_controls := l2.missing_controls.take 10
  match llm with
  | some gen =>
    match gen (llmPrompt (buildContext l1 l2 cia framework)) with
    | some resp => parse_llm_response resp
    | none => rule_based_from_context framework
  | none =>
    rule_based_reasoning structural_missing semantic_weak missing_controls
      l1 l2 cia framework

/- ################################################################
   Audit Risk Predictor (audit_predictor/predictor.py).

   The pickled RandomForest + StandardScaler pair is external state: it is
   modelled as an optional oracle mapping the (unscaled) 4-feature vector to
   a predicted class in {0,1,2} and a probability triple (the scaler is
   folded into the oracle).  `None` models the `model is None or scaler is
   None` branch.  Feature extraction itself is repository code and is
   embedded exactly; its division is the only statement that can raise.
   ################################################################ -/

structure RiskInput where
  missing_controls_count : ℤ
  cia_balance_index : ℚ
  weak_clauses : List ClauseMatch
  total_clauses : ℕ
  compliance_percentage : ℚ
deriving DecidableEq, Repr

/-- `AuditRiskPredictor.extract_features`.  With `total_clauses = 0` the
source computes `(weak_clauses_count / total_clauses) * 100`, which raises
`ZeroDivisionError` (Python int division by zero). -/
def extract_features (r : RiskInput) : Except String (ℚ × ℚ × ℚ × ℚ) :=
  let missing_controls : ℚ := (r.missing_controls_count : ℚ)
  let cia_imbalance : ℚ := 100 - r.cia_balance_index
  if r.total_clauses = 0 then
    Except.error "ZeroDivisionError: division by zero"
  else
    let weak_statements_freq : ℚ :=
      (r.weak_clauses.length : ℚ) / (r.total_clauses : ℚ) * 100
    Except.ok (missing_controls, cia_imbalance, weak_statements_freq,
               r.compliance_percentage)

def riskLevelName : Fin 3 → String
  | 0 => "Low Risk"
  | 1 => "Medium Risk"
  | 2 => "High Risk"

def probSel (p : ℚ × ℚ × ℚ) : Fin 3 → ℚ
  | 0 => p.1
  | 1 => p.2.1
  | 2 => p.2.2

structure RiskPrediction where
  risk_level : String
  confidence : ℚ
  risk_score : ℕ
  /-- probability_distribution dict: fixed keys Low/Medium/High Risk -/
  prob_low : ℚ
  prob_medium : ℚ
  prob_high : ℚ
  feature_contributions : ℚ × ℚ × ℚ × ℚ
  recommendations : List String
deriving DecidableEq, Repr

/-- `predict_risk` returns `{'error': 'Model not available',
'risk_level': 'Unknown'}` when model or scaler is missing. -/
inductive RiskOutcome where
  | unavailable : RiskOutcome
  | ok : RiskPrediction → RiskOutcome
deriving DecidableEq, Repr

/-- `AuditRiskPredictor._generate_risk_recommendations` (the source prefixes
the first entry of each branch with a colored-circle emoji; the emoji bytes
are mojibake in the repository and are dropped here). -/
def riskRecommendations (risk_level : String) (fc : ℚ × ℚ × ℚ × ℚ) :
    List String :=
  if risk_level = "High Risk" then
    ["HIGH RISK: Immediate action required. Address critical gaps before audit."] ++
    (if 15 < fc.1 then ["- Implement missing controls as priority"] else []) ++
    (if 50 < fc.2.1 then ["- Balance CIA coverage across all three pillars"] else []) ++
    (if fc.2.2.2 < 50 then ["- Expand policy documentation to improve coverage"] else [])
  else if risk_level = "Medium Risk" then
    ["MEDIUM RISK: Improvements needed. Focus on key gaps.",
     "- Review and strengthen weak policy statements",
     "- Address identified control gaps"]
  else
    ["LOW RISK: Good compliance posture. Continue monitoring.",
     "- Maintain current documentation quality",
     "- Conduct regular reviews to ensure ongoing compliance"]

/-- `AuditRiskPredictor.predict_risk`. -/
def predict_risk (classifier : Option ((ℚ × ℚ × ℚ × ℚ) → Fin 3 × (ℚ × ℚ × ℚ)))
    (r : RiskInput) : Except String RiskOutcome :=
  match classifier with
  | none => Except.ok RiskOutcome.unavailable
  | some cl =>
    match extract_features r with
    | Except.error e => Except.error e
    | Except.ok features =>
      let pred := (cl features).1
      let probs := (cl features).2
      let risk_level := riskLevelName pred
      let confidence := probSel probs pred * 100
      Except.ok (RiskOutcome.ok
        { risk_level := risk_level, confidence := pyRound 2 confidence,
          risk_score := pred.val,
          prob_low := pyRound 2 (probs.1 * 100),
          prob_medium := pyRound 2 (probs.2.1 * 100),
          prob_high := pyRound 2 (probs.2.2 * 100),
          feature_contributions := features,
          recommendations := riskRecommendations risk_level features })

structure AuditReadiness where
  audit_readiness_score : ℚ
  readiness_level : String
  recommendation : String
deriving DecidableEq, Repr

def readinessRecommendation (level : String) : String :=
  if level = "Audit Ready" then
    "Your compliance documentation is audit-ready. Maintain current standards."
  else if level = "Mostly Ready" then
    "Address minor gaps and strengthen weak areas before audit."
  else if level = "Preparing" then
    "Significant work needed. Focus on critical controls and coverage."
  else if level = "Not Ready" then
    "Major gaps identified. Comprehensive remediation required before audit."
  else ""

/-- `AuditRiskPredictor.get_audit_readiness_score`.  On the error dict the
`probability_distribution` key is absent, so every `.get` yields 0. -/
def get_audit_readiness_score (rp : RiskOutcome) : AuditReadiness :=
  let pl := match rp with | RiskOutcome.ok p => p.prob_low | RiskOutcome.unavailable => 0
  let pm := match rp with | RiskOutcome.ok p => p.prob_medium | RiskOutcome.unavailable => 0
  let ph := match rp with | RiskOutcome.ok p => p.prob_high | RiskOutcome.unavailable => 0
  let readiness_score := pl * 1 + pm * 0.5 + ph * 0
  let readiness_level :=
    if 80 ≤ readiness_score then "Audit Ready"
    else if 60 ≤ readiness_score then "Mostly Ready"
    else if 40 ≤ readiness_score then "Preparing"
    else "Not Ready"
  { audit_readiness_score := pyRound 2 readiness_score,
    readiness_level := readiness_level,
    recommendation := readinessRecommendation readiness_level }

/- ################################################################
   Hybrid Pipeline Orchestrator (hybrid_pipeline/pipeline.py).

   `run` is modelled on its clauses+full_text entry (the file_path branch
   delegates to the out-of-scope document extractor).  `analysis_id`
   (a fresh random token), `file_name` and `analyzed_at` (wall-clock) are
   external effects and are not part of the modelled report.
   ################################################################ -/

structure LegacyFrameworkResult where
  compliance_percentage : ℚ
  matched_controls_count : ℕ
  total_controls : ℕ
  total_clauses : ℕ
  matched_clauses : ℤ
  missing_controls : List MissingControl
  /-- pairs (clause text, reason); the reason's `:.2f` float formatting is
  rendered with `toString` -/
  weak_clauses : List (String × String)
deriving DecidableEq, Repr

structure HybridAnalysis where
  layer1_structural : List (String × StructuralResult)
  layer2_semantic : List (String × SemanticResult)
  layer3_reasoning : List (String × ReasoningResult)
  cci_scores : List (String × ℚ)
  overall_cci : ℚ
deriving DecidableEq, Repr

structure CCIReport where
  frameworks : List String
  compliance_results : List (String × LegacyFrameworkResult)
  cia_analysis : Option CIAOutcome
  risk_prediction : RiskOutcome
  audit_readiness : AuditReadiness
  hybrid_analysis : HybridAnalysis
deriving DecidableEq, Repr

/-- `HybridCompliancePipeline._compute_cci` with
`CCI_WEIGHTS = {structural: 0.4, semantic: 0.4, reasoning: 0.2}`. -/
def compute_cci (structural_score semantic_score reasoning_confidence : ℚ) : ℚ :=
  pyRound 2 (structural_score * 0.4 + semantic_score * 0.4 +
             reasoning_confidence * 0.2)

/-- The per-framework loop of `run` (steps 2-4) plus the `hybrid_analysis`
block of the final response.  The CIA analysis is deterministic, so the
per-framework recomputation inside the source loop is modelled by the one
shared value. -/
def hybridAnalysisOf (simModel : Option (String → String → ℚ))
    (controls : String → List Control) (llm : Option (String → Option String))
    (sqrtQ : ℚ → ℚ) (clauses : List Clause) (full_text : String)
    (frameworks : List String) (include_cia : Bool) : HybridAnalysis :=
  let l1f := fun fw => rule_analyze full_text clauses fw
  let l2f := fun fw => semantic_analyze simModel (controls fw) clauses fw
  let cia_data := if include_cia then some (analyze_document_cia sqrtQ clauses) else none
  let l3f := fun fw => reasoning_analyze llm (l1f fw) (l2f fw) cia_data fw
  let ccif := fun fw =>
    compute_cci (l1f fw).structural_score (l2f fw).semantic_score
      (l3f fw).reasoning_confidence
  let cci := dictBuild ccif frameworks
  { layer1_structural := dictBuild l1f frameworks,
    layer2_semantic := dictBuild l2f frameworks,
    layer3_reasoning := dictBuild l3f frameworks,
    cci_scores := cci,
    overall_cci :=
      if cci.isEmpty then 0
      else pyRound 2 ((cci.map Prod.snd).sum / (cci.length : ℚ)) }

/-- Step 7 of `run`: the legacy compliance view for one framework. -/
def legacyOf (l2 : SemanticResult) : LegacyFrameworkResult :=
  { compliance_percentage := l2.compliance_percentage,
    matched_controls_count := l2.matched_controls,
    total_controls := l2.total_controls,
    total_clauses := l2.total_clauses,
    matched_clauses := l2.strong_count + l2.partial_count,
    missing_controls := l2.missing_controls.take 10,
    weak_clauses :=
      ((l2.clause_matches.filter (fun m => m.compliance_level == "weak")).map
        (fun m =>
          let sim := toString m.similarity
          (m.clause_text, s!"Low similarity ({sim})"))).take 5 }

/-- `HybridCompliancePipeline.run` on the clauses+full_text entry.  The
empty-frameworks call would raise `IndexError` at `frameworks[0]`. -/
def run (simModel : Option (String → String → ℚ))
    (controls : String → List Control) (llm : Option (String → Option String))
    (sqrtQ : ℚ → ℚ)
    (classifier : Option ((ℚ × ℚ × ℚ × ℚ) → Fin 3 × (ℚ × ℚ × ℚ)))
    (clauses : List Clause) (full_text : String)
    (frameworks : List String) (include_cia : Bool) :
    Except String CCIReport :=
  let hyb := hybridAnalysisOf simModel controls llm sqrtQ clauses full_text
    frameworks include_cia
  let cia_analysis := if include_cia then some (analyze_document_cia sqrtQ clauses) else none
  match frameworks with
  | [] => Except.error "IndexError: list index out of range"
  | primary_fw :: _ =>
    let l2p := (dictGet primary_fw hyb.layer2_semantic).getD (emptySemantic primary_fw)
    let risk_input : RiskInput :=
      { missing_controls_count :=
          (l2p.total_controls : ℤ) - (l2p.matched_controls : ℤ),
        cia_balance_index := ciaBalanceOf cia_analysis,
        weak_clauses := l2p.clause_matches.filter (fun m => m.compliance_level == "weak"),
        total_clauses := clauses.length,
        compliance_percentage := l2p.compliance_percentage }
    match predict_risk classifier risk_input with
    | Except.error e => Except.error e
    | Except.ok risk_prediction =>
      let audit_readiness := get_audit_readiness_score risk_prediction
      let legacy := dictBuild
        (fun fw => legacyOf ((dictGet fw hyb.layer2_semantic).getD (emptySemantic fw)))
        frameworks
      Except.ok
        { frameworks := frameworks, compliance_results := legacy,
          cia_analysis := cia_analysis, risk_prediction := risk_prediction,
          audit_readiness := audit_readiness, hybrid_analysis := hyb }

/- ################################################################
   Claim theorems.
   ################################################################ -/

/-- C4: In `SemanticSimilarityEngine.analyze`, a clause whose best cosine
similarity is exactly 0.70 is classified "strong", exactly 0.45 is
classified "partial", and any value strictly below 0.45 (including 0.449
and negative similarities) is classified "weak".  The first conjunct ties
the per-clause classification of `analyze`'s embedding path to
`classifySimilarity`; the rest settle the boundary values. -/
theorem claim_C4_similarity_thresholds :
    (∀ (s : ℚ) (ctrl : Control) (cl : Clause) (fw : String),
      (semantic_analyze (some (fun _ _ => s)) [ctrl] [cl] fw).clause_matches.map
          (fun m => m.compliance_level) = [classifySimilarity s]) ∧
    classifySimilarity 0.70 = "strong" ∧
    classifySimilarity 0.45 = "partial" ∧
    classifySimilarity 0.449 = "weak" ∧
    (∀ s : ℚ, s < 0.45 → classifySimilarity s = "weak") := by
  refine ⟨?_, ?_, ?_, ?_, ?_⟩
  · intro s ctrl cl fw
    simp [semantic_analyze, semanticEmbedAnalysis, mkClauseMatch, argmaxFirst]
  · norm_num [classifySimilarity, STRONG_THRESHOLD, PARTIAL_THRESHOLD]
  · norm_num [classifySimilarity, STRONG_THRESHOLD, PARTIAL_THRESHOLD]
  · norm_num [classifySimilarity, STRONG_THRESHOLD, PARTIAL_THRESHOLD]
  · intro s hs
    have h1 : ¬ (STRONG_THRESHOLD ≤ s) := by
      rw [STRONG_THRESHOLD]; norm_num at hs ⊢; linarith
    have h2 : ¬ (PARTIAL_THRESHOLD ≤ s) := by
      rw [PARTIAL_THRESHOLD]; norm_num at hs ⊢; linarith
    simp [classifySimilarity, h1, h2]

/-- C4 witness: a similarity of -1 (negative similarities are possible and
unclamped) falls strictly below 0.45 and is classified "weak". -/
theorem claim_C4_witness :
    (-1 : ℚ) < 0.45 ∧ classifySimilarity (-1) = "weak" :=
  ⟨by norm_num, claim_C4_similarity_thresholds.2.2.2.2 (-1) (by norm_num)⟩

/-- C7 counterexample: the claim states the rule-based reasoning confidence
equals the *unrounded* `clamp(0, 100, s*0.4 + m*0.4 + 20 - min(3n, 30))`.
The source rounds that clamp to 2 decimals (`round(..., 2)`), and at
structural=33.33, semantic=0, n_gaps=0 the clamp is 33.332 while the code
returns 33.33. -/
theorem claim_C7_counterexample :
    calc_confidence 33.33 0 0 ≠
      max 0 (min 100 ((33.33 : ℚ) * 0.4 + 0 * 0.4 + 20 - ((min (0 * 3) 30 : ℕ) : ℚ))) := by
  norm_num [calc_confidence, pyRound, rhe]

/-- C7 (amended): on the rule-based reasoning path, `reasoning_confidence`
equals `round(clamp(0, 100, s*0.4 + m*0.4 + 20 - min(n_gaps*3, 30)), 2)`,
where `n_gaps` is the number of gap explanations (at most 6 of the
missing/partial structural sections); structural=50, semantic=50,
n_gaps=10 yields 30. -/
theorem claim_C7_amended_confidence_formula :
    (∀ (s m : ℚ) (n : ℕ),
      calc_confidence s m n =
        pyRound 2 (max 0 (min 100 (s * 0.4 + m * 0.4 + 20 - ((min (n * 3) 30 : ℕ) : ℚ))))) ∧
    calc_confidence 50 50 10 = 30 ∧
    (∀ (l1 : StructuralResult) (l2 : SemanticResult) (cia : Option CIAOutcome)
      (fw : String),
      (reasoning_analyze none l1 l2 cia fw).reasoning_confidence =
        calc_confidence l1.structural_score l2.semantic_score
          (min 6 (structuralMissingOf l1).length)) := by
  refine ⟨fun s m n => rfl, ?_, ?_⟩
  · norm_num [calc_confidence, pyRound, rhe]
  · intro l1 l2 cia fw
    simp [reasoning_analyze, rule_based_reasoning, List.length_take]

/-- C9: for an unknown framework key ("foo"), `RuleBasedEngine.analyze`
returns the zero-valued empty result (total_required = 0, score = 0), and
`SemanticSimilarityEngine.analyze` — whose control list for an unknown key
is empty, so its embedding matrix is empty on every model configuration —
reports total_controls = 0 and semantic_score = 0; neither raises (both
are total functions). -/
theorem claim_C9_unknown_framework :
    (∀ (full_text : String) (clauses : List Clause),
      rule_analyze full_text clauses "foo" = emptyStructural "foo") ∧
    (emptyStructural "foo").total_required = 0 ∧
    (emptyStructural "foo").structural_score = 0 ∧
    (∀ (simModel : Option (String → String → ℚ)) (clauses : List Clause),
      (semantic_analyze simModel [] clauses "foo").total_controls = 0 ∧
      (semantic_analyze simModel [] clauses "foo").semantic_score = 0) := by
  refine ⟨fun _ _ => rfl, rfl, rfl, ?_⟩
  intro simModel clauses
  cases simModel <;>
    simp [semantic_analyze, fallbackAnalysis] <;>
    norm_num [pyRound, rhe]

/-- C2: for every framework analyzed by the pipeline, the per-framework CCI
stored in `hybrid_analysis.cci_scores` equals
`round(structural*0.4 + semantic*0.4 + reasoning*0.2, 2)` of that
framework's stored layer results (80/60/70 gives 70.0), and `overall_cci`
is the mean of the CCI values rounded to 2 decimals, or 0 when no
frameworks were processed. -/
theorem claim_C2_cci_formula :
    (∀ (simModel : Option (String → String → ℚ)) (controls : String → List Control)
      (llm : Option (String → Option String)) (sqrtQ : ℚ → ℚ)
      (clauses : List Clause) (full_text : String) (frameworks : List String)
      (include_cia : Bool) (fw : String),
      fw ∈ frameworks →
      ∃ r1 r2 r3,
        dictGet fw (hybridAnalysisOf simModel controls llm sqrtQ clauses full_text
            frameworks include_cia).layer1_structural = some r1 ∧
        dictGet fw (hybridAnalysisOf simModel controls llm sqrtQ clauses full_text
            frameworks include_cia).layer2_semantic = some r2 ∧
        dictGet fw (hybridAnalysisOf simModel controls llm sqrtQ clauses full_text
            frameworks include_cia).layer3_reasoning = some r3 ∧
        dictGet fw (hybridAnalysisOf simModel controls llm sqrtQ clauses full_text
            frameworks include_cia).cci_scores =
          some (pyRound 2 (r1.structural_score * 0.4 + r2.semantic_score * 0.4 +
                           r3.reasoning_confidence * 0.2))) ∧
    (∀ (simModel : Option (String → String → ℚ)) (controls : String → List Control)
      (llm : Option (String → Option String)) (sqrtQ : ℚ → ℚ)
      (clauses : List Clause) (full_text : String) (frameworks : List String)
      (include_cia : Bool),
      (hybridAnalysisOf simModel controls llm sqrtQ clauses full_text
          frameworks include_cia).overall_cci =
        if (hybridAnalysisOf simModel controls llm sqrtQ clauses full_text
            frameworks include_cia).cci_scores.isEmpty then 0
        else pyRound 2
          (((hybridAnalysisOf simModel controls llm sqrtQ clauses full_text
              frameworks include_cia).cci_scores.map Prod.snd).sum /
            ((hybridAnalysisOf simModel controls llm sqrtQ clauses full_text
              frameworks include_cia).cci_scores.length : ℚ))) ∧
    compute_cci 80 60 70 = 70 := by
  refine ⟨?_, ?_, ?_⟩
  · intro simModel controls llm sqrtQ clauses full_text frameworks include_cia fw hmem
    refine ⟨rule_analyze full_text clauses fw,
      semantic_analyze simModel (controls fw) clauses fw,
      reasoning_analyze llm (rule_analyze full_text clauses fw)
        (semantic_analyze simModel (controls fw) clauses fw)
        (if include_cia then some (analyze_document_cia sqrtQ clauses) else none) fw,
      ?_, ?_, ?_, ?_⟩ <;>
      simp [hybridAnalysisOf, dictGet_dictBuild, hmem, compute_cci]
  · intro simModel controls llm sqrtQ clauses full_text frameworks include_cia
    rfl
  · norm_num [compute_cci, pyRound, rhe]

/-- C2 witness: instantiated for a single-framework run ("iso27001" is a
member of ["iso27001"]). -/
theorem claim_C2_witness :
    "iso27001" ∈ ["iso27001"] ∧
    ∃ r1 r2 r3,
      dictGet "iso27001" (hybridAnalysisOf none (fun _ => []) none (fun _ => 0)
          [] "" ["iso27001"] false).layer1_structural = some r1 ∧
      dictGet "iso27001" (hybridAnalysisOf none (fun _ => []) none (fun _ => 0)
          [] "" ["iso27001"] false).layer2_semantic = some r2 ∧
      dictGet "iso27001" (hybridAnalysisOf none (fun _ => []) none (fun _ => 0)
          [] "" ["iso27001"] false).layer3_reasoning = some r3 ∧
      dictGet "iso27001" (hybridAnalysisOf none (fun _ => []) none (fun _ => 0)
          [] "" ["iso27001"] false).cci_scores =
        some (pyRound 2 (r1.structural_score * 0.4 + r2.semantic_score * 0.4 +
                         r3.reasoning_confidence * 0.2)) :=
  ⟨by simp,
   claim_C2_cci_formula.1 none (fun _ => []) none (fun _ => 0) [] ""
     ["iso27001"] false "iso27001" (by simp)⟩

/-- C1 (code bug): with the risk classifier loaded (the normal state: the
predictor trains and persists one at startup when none exists), running the
pipeline on an empty clause list propagates a `ZeroDivisionError`:
`extract_features` divides the weak-clause count by
`total_clauses = len(clauses) = 0`.  The spec requires the pipeline never
to crash on empty input; the theorem holds for every embedding-model, LLM,
framework-data and sqrt configuration. -/
theorem claim_C1_empty_clauses_division_error :
    ∀ (simModel : Option (String → String → ℚ)) (controls : String → List Control)
      (llm : Option (String → Option String)) (sqrtQ : ℚ → ℚ)
      (cl : (ℚ × ℚ × ℚ × ℚ) → Fin 3 × (ℚ × ℚ × ℚ)),
      run simModel controls llm sqrtQ (some cl) [] "" ["iso27001"] true =
        Except.error "ZeroDivisionError: division by zero" := by
  intro simModel controls llm sqrtQ cl
  simp [run, predict_risk, extract_features]

/-- The quantity claim C3 describes: the fraction of a section's keywords
found case-insensitively as substrings of the full document text or of the
concatenation of the clause texts (0 when the keyword list is empty, which
occurs in no catalog). -/
def specKeywordRatio (full_text : String) (clauses : List Clause)
    (req : RequiredSection) : ℚ :=
  if req.keywords.length = 0 then 0
  else ((req.keywords.filter (fun kw =>
      strContains (pyLower full_text) kw ||
      strContains (pyLower (spaceJoin (clauses.map Clause.text))) kw)).length : ℚ) /
    (req.keywords.length : ℚ)

/-- The property C3 asserts of `RuleBasedEngine.analyze` for a document and
a known framework with required-section list `sections`: every section is
classified by the fraction of its keywords found (case-insensitively, via
lower-casing) as substrings of the full text or of the concatenated clause
texts — ratio ≥ 0.5 present, 0 < ratio < 0.5 partial, ratio = 0 missing —
and the structural score is `round(100*(present + 0.5*partial)/total, 2)`. -/
def structuralSpecHolds (full_text : String) (clauses : List Clause)
    (fw : String) (sections : List RequiredSection) : Prop :=
  (rule_analyze full_text clauses fw).section_results =
    sections.map (evalSection (pyLower full_text)
      (pyLower (spaceJoin (clauses.map Clause.text)))) ∧
  (∀ req ∈ sections,
    (evalSection (pyLower full_text)
        (pyLower (spaceJoin (clauses.map Clause.text))) req).status =
      (if (1:ℚ)/2 ≤ specKeywordRatio full_text clauses req then "present"
       else if 0 < specKeywordRatio full_text clauses req then "partial"
       else "missing")) ∧
  0 < (rule_analyze full_text clauses fw).total_required ∧
  (rule_analyze full_text clauses fw).structural_score =
    pyRound 2 (100 * (((rule_analyze full_text clauses fw).present : ℚ) +
      0.5 * ((rule_analyze full_text clauses fw).partial_count : ℚ)) /
      ((rule_analyze full_text clauses fw).total_required : ℚ))

/-- C3: for every document and known framework (a key of
`FRAMEWORK_SECTIONS`; all four catalogs are nonempty),
`RuleBasedEngine.analyze` classifies and scores as the claim states. -/
theorem claim_C3_structural_scoring :
    ∀ (full_text : String) (clauses : List Clause) (fw : String)
      (sections : List RequiredSection),
      dictGet fw FRAMEWORK_SECTIONS = some sections → sections ≠ [] →
      structuralSpecHolds full_text clauses fw sections := by
  intro full_text clauses fw sections hget hne
  have hie : sections.isEmpty = false := by
    cases sections with
    | nil => exact absurd rfl hne
    | cons a l => rfl
  have hr : rule_analyze full_text clauses fw =
      ruleAnalyzeSections full_text clauses fw sections := by
    simp [rule_analyze, hget, hie]
  have htot : 0 < sections.length := by
    cases sections with
    | nil => exact absurd rfl hne
    | cons a l => simp
  refine ⟨by rw [hr]; rfl, ?_, ?_, ?_⟩
  · intro req hreq
    simp only [evalSection, specKeywordRatio]
  · rw [hr]
    simpa [ruleAnalyzeSections] using htot
  · rw [hr]
    have hne0 : ¬ (sections.length = 0) := Nat.pos_iff_ne_zero.mp htot
    simp only [ruleAnalyzeSections, hne0, if_false]
    congr 1
    have hcast : ((sections.length : ℚ)) ≠ 0 := by
      exact_mod_cast hne0
    field_simp
    ring

/-- C3 witness: the "iso9001" catalog is a known nonempty framework; the
property is instantiated on the empty document. -/
theorem claim_C3_witness :
    dictGet "iso9001" FRAMEWORK_SECTIONS = some ISO9001_REQUIRED_SECTIONS ∧
    ISO9001_REQUIRED_SECTIONS ≠ [] ∧
    structuralSpecHolds "" [] "iso9001" ISO9001_REQUIRED_SECTIONS :=
  ⟨rfl, by decide,
   claim_C3_structural_scoring "" [] "iso9001" ISO9001_REQUIRED_SECTIONS rfl
     (by decide)⟩

theorem classifySimilarity_mem (s : ℚ) :
    classifySimilarity s = "strong" ∨ classifySimilarity s = "partial" ∨
      classifySimilarity s = "weak" := by
  unfold classifySimilarity
  split
  · exact Or.inl rfl
  · split
    · exact Or.inr (Or.inl rfl)
    · exact Or.inr (Or.inr rfl)

theorem countP_level_partition (l : List ClauseMatch)
    (h : ∀ m ∈ l, m.compliance_level = "strong" ∨ m.compliance_level = "partial" ∨
      m.compliance_level = "weak") :
    l.countP (fun m => m.compliance_level = "strong") +
      l.countP (fun m => m.compliance_level = "partial") +
      l.countP (fun m => m.compliance_level = "weak") = l.length := by
  induction l with
  | nil => simp
  | cons m l ih =>
    have hm := h m (List.mem_cons_self m l)
    have hl : ∀ x ∈ l, x.compliance_level = "strong" ∨ x.compliance_level = "partial" ∨
        x.compliance_level = "weak" := fun x hx => h x (List.mem_cons_of_mem m hx)
    have hsum := ih hl
    rcases hm with hm | hm | hm <;> simp [List.countP_cons, hm] <;> omega

/-- The embedding path assigns each clause one of the three levels. -/
theorem semanticEmbed_levels (sim : String → String → ℚ) (controls : List Control)
    (clauses : List Clause) (fw : String) :
    ∀ m ∈ (semanticEmbedAnalysis sim controls clauses fw).clause_matches,
      m.compliance_level = "strong" ∨ m.compliance_level = "partial" ∨
        m.compliance_level = "weak" := by
  intro m hm
  simp only [semanticEmbedAnalysis, List.mem_map] at hm
  obtain ⟨ct, _, rfl⟩ := hm
  exact classifySimilarity_mem _

/-- C6 counterexample: on the keyword fallback path with an empty clause
list, `total_clauses` is `len(clauses) or 1 = 1`, so
strong + partial + weak = 1 while the number of input clauses is 0. -/
theorem claim_C6_counterexample :
    (semantic_analyze none [] [] "iso27001").strong_count +
      (semantic_analyze none [] [] "iso27001").partial_count +
      (semantic_analyze none [] [] "iso27001").weak_count ≠
      (([] : List Clause).length : ℤ) := by
  decide

/-- C6 (amended): on every path, strong + partial + weak equals the
*reported* `total_clauses` field; that field equals the number of input
clauses on the embedding and empty-input paths, but equals
`max 1 len(clauses)` (i.e. `len(clauses) or 1`) on the keyword fallback
path, so the two differ exactly on a fallback run with zero clauses. -/
theorem claim_C6_amended_count_invariant :
    ∀ (simModel : Option (String → String → ℚ)) (controls : List Control)
      (clauses : List Clause) (fw : String),
      ((semantic_analyze simModel controls clauses fw).strong_count +
        (semantic_analyze simModel controls clauses fw).partial_count +
        (semantic_analyze simModel controls clauses fw).weak_count =
        ((semantic_analyze simModel controls clauses fw).total_clauses : ℤ)) ∧
      ((simModel = none ∨ controls = []) →
        (semantic_analyze simModel controls clauses fw).total_clauses =
          max 1 clauses.length) ∧
      (∀ sim, simModel = some sim → controls ≠ [] →
        (semantic_analyze simModel controls clauses fw).total_clauses =
          clauses.length) := by
  intro simModel controls clauses fw
  have hfb : ∀ cs : List Control,
      (fallbackAnalysis cs clauses fw).strong_count +
        (fallbackAnalysis cs clauses fw).partial_count +
        (fallbackAnalysis cs clauses fw).weak_count =
        ((fallbackAnalysis cs clauses fw).total_clauses : ℤ) := by
    intro cs
    simp [fallbackAnalysis]
  have hfbt : ∀ cs : List Control,
      (fallbackAnalysis cs clauses fw).total_clauses = max 1 clauses.length := by
    intro cs
    simp only [fallbackAnalysis]
    split <;> omega
  match simModel with
  | none =>
    refine ⟨hfb controls, fun _ => hfbt controls, ?_⟩
    intro sim hsim
    exact absurd hsim (by simp)
  | some sim =>
    match controls with
    | [] =>
      refine ⟨hfb [], fun _ => hfbt [], ?_⟩
      intro sim' _ hc
      exact absurd rfl hc
    | c :: cs =>
      match clauses with
      | [] =>
        refine ⟨?_, ?_, ?_⟩
        · simp [semantic_analyze, emptySemantic]
        · intro hor
          rcases hor with h | h
          · exact absurd h (by simp)
          · exact absurd h (by simp)
        · intro sim' _ _
          simp [semantic_analyze, emptySemantic]
      | cl :: cls =>
        have hemb : semantic_analyze (some sim) (c :: cs) (cl :: cls) fw =
            semanticEmbedAnalysis sim (c :: cs) (cl :: cls) fw := rfl
        refine ⟨?_, ?_, ?_⟩
        · rw [hemb]
          have hpart := countP_level_partition
            (semanticEmbedAnalysis sim (c :: cs) (cl :: cls) fw).clause_matches
            (semanticEmbed_levels sim (c :: cs) (cl :: cls) fw)
          simp only [semanticEmbedAnalysis, List.length_map] at hpart ⊢
          exact_mod_cast hpart
        · intro hor
          rcases hor with h | h
          · exact absurd h (by simp)
          · exact absurd h (by simp)
        · intro sim' _ _
          rw [hemb]
          simp [semanticEmbedAnalysis]

/-- A concrete control for the C5 counterexample. -/
def c5Ctrl : Control :=
  { id := some "C1", title := some "Data Protection",
    description := some "data protection policy", category := none,
    priority := none }

/-- The fallback analysis of a one-control, one-clause input. -/
def c5Result : SemanticResult :=
  semantic_analyze none [c5Ctrl] [⟨"Data handling"⟩] "iso27001"

/-- C5 counterexample: on the keyword-overlap fallback path the score is
`round(matched_controls / (total_controls or 1) * 100, 2)`, not the
strong/partial-count formula.  Here one clause matches the one control via
the keyword "data": the code reports semantic_score = 100 while
`round(100*(strong*1.0 + partial*0.5)/total_clauses, 2) = 50`, with
total_clauses = 1 > 0. -/
theorem claim_C5_counterexample :
    0 < c5Result.total_clauses ∧
    c5Result.semantic_score ≠
      pyRound 2 (100 * ((c5Result.strong_count : ℚ) * 1 +
        (c5Result.partial_count : ℚ) * 0.5) / (c5Result.total_clauses : ℚ)) := by
  have h1 : c5Result.total_clauses = 1 := by decide
  have h2 : c5Result.strong_count = 0 := by decide
  have h3 : c5Result.partial_count = 1 := by decide
  have h4 : c5Result.semantic_score =
      pyRound 2 ((((1 : ℕ) : ℚ)) / (((1 : ℕ) : ℚ)) * 100) := rfl
  refine ⟨by omega, ?_⟩
  rw [h1, h2, h3, h4]
  norm_num [pyRound, rhe]

/-- C5 (amended): the claimed formula
`semantic_score = round(100*(strong*1.0 + partial*0.5)/total_clauses, 2)`
holds on the embedding path (nonempty controls and clauses; on empty input
all quantities are 0); on the keyword-overlap fallback path the score is
instead `round(matched_controls/(total_controls or 1)*100, 2)`. -/
theorem claim_C5_amended_semantic_score :
    (∀ (sim : String → String → ℚ) (controls : List Control)
      (clauses : List Clause) (fw : String),
      controls ≠ [] → clauses ≠ [] →
      (semantic_analyze (some sim) controls clauses fw).semantic_score =
        pyRound 2 (100 *
          (((semantic_analyze (some sim) controls clauses fw).strong_count : ℚ) * 1 +
           ((semantic_analyze (some sim) controls clauses fw).partial_count : ℚ) * 0.5) /
          ((semantic_analyze (some sim) controls clauses fw).total_clauses : ℚ))) ∧
    (∀ (controls : List Control) (clauses : List Clause) (fw : String),
      (semantic_analyze none controls clauses fw).semantic_score =
        pyRound 2 (((semantic_analyze none controls clauses fw).matched_controls : ℚ) /
          ((max 1 (semantic_analyze none controls clauses fw).total_controls : ℕ) : ℚ) *
          100)) := by
  constructor
  · intro sim controls clauses fw hc hcl
    match controls, clauses with
    | c :: cs, cl :: cls =>
      have hsem : semantic_analyze (some sim) (c :: cs) (cl :: cls) fw =
          semanticEmbedAnalysis sim (c :: cs) (cl :: cls) fw := rfl
      rw [hsem]
      simp only [semanticEmbedAnalysis, List.length_map, List.length_cons]
      have hne : ¬ ((cls.length + 1 : ℕ) = 0) := by omega
      rw [if_neg hne]
      congr 1
      push_cast
      ring
  · intro controls clauses fw
    have hsem : semantic_analyze none controls clauses fw =
        fallbackAnalysis controls clauses fw := rfl
    rw [hsem]
    simp only [fallbackAnalysis]
    have hd : (if controls.length = 0 then 1 else controls.length) =
        max 1 controls.length := by
      split <;> omega
    rw [hd]

/-- C5 witness for the embedding-path conjunct: a one-control, one-clause
run with a constant similarity oracle. -/
theorem claim_C5_witness :
    ([c5Ctrl] : List Control) ≠ [] ∧ ([⟨"x"⟩] : List Clause) ≠ [] ∧
    (semantic_analyze (some (fun _ _ => (1 : ℚ))) [c5Ctrl] [⟨"x"⟩] "iso27001").semantic_score =
      pyRound 2 (100 *
        (((semantic_analyze (some (fun _ _ => (1 : ℚ))) [c5Ctrl] [⟨"x"⟩] "iso27001").strong_count : ℚ) * 1 +
         ((semantic_analyze (some (fun _ _ => (1 : ℚ))) [c5Ctrl] [⟨"x"⟩] "iso27001").partial_count : ℚ) * 0.5) /
        ((semantic_analyze (some (fun _ _ => (1 : ℚ))) [c5Ctrl] [⟨"x"⟩] "iso27001").total_clauses : ℚ)) :=
  ⟨by simp, by simp,
   claim_C5_amended_semantic_score.1 (fun _ _ => (1 : ℚ)) [c5Ctrl] [⟨"x"⟩]
     "iso27001" (by simp) (by simp)⟩

/-- A clause text containing none of the CIA classification keywords:
all three per-pillar keyword-match counts are zero. -/
def noCIAHits (t : String) : Prop :=
  ciaScoreFor CIA_KEYWORDS_CONF (pyLower t) = 0 ∧
  ciaScoreFor CIA_KEYWORDS_INTEG (pyLower t) = 0 ∧
  ciaScoreFor CIA_KEYWORDS_AVAIL (pyLower t) = 0

instance (t : String) : Decidable (noCIAHits t) := by
  unfold noCIAHits
  infer_instance

/-- On an all-zero score dict, `max(items, key=value)` resolves to the
first key, "confidentiality", while the percentages default to the even
33.33/33.33/33.34 split. -/
theorem classifyClauseCIA_noHits (t : String) (h : noCIAHits t) :
    (classifyClauseCIA t).primary_category = "confidentiality" ∧
    (classifyClauseCIA t).cia_percentages = ⟨33.33, 33.33, 33.34⟩ := by
  obtain ⟨h1, h2, h3⟩ := h
  constructor <;> simp [classifyClauseCIA, h1, h2, h3]

/-- C10: a clause with no CIA keyword hits gets primary category
"confidentiality" (argmax of an all-zero dict) with the default even
percentage split, and a nonempty document in which every clause has zero
CIA-keyword hits reports cia_coverage 100/0/0 and a distribution that puts
every clause under confidentiality. -/
theorem claim_C10_zero_hit_cia_classification :
    (∀ t : String, noCIAHits t →
      (classifyClauseCIA t).primary_category = "confidentiality" ∧
      (classifyClauseCIA t).cia_percentages = ⟨33.33, 33.33, 33.34⟩) ∧
    (∀ (sqrtQ : ℚ → ℚ) (clauses : List Clause), clauses ≠ [] →
      (∀ c ∈ clauses, noCIAHits c.text) →
      ∃ r, analyze_document_cia sqrtQ clauses = CIAOutcome.ok r ∧
        r.cia_coverage = ⟨100, 0, 0⟩ ∧
        r.cia_distribution = ⟨clauses.length, 0, 0⟩) := by
  refine ⟨classifyClauseCIA_noHits, ?_⟩
  intro sqrtQ clauses hne hall
  match clauses with
  | c0 :: cls =>
    have hdc : (List.map (fun c => classifyClauseCIA c.text) (c0 :: cls)).countP
        (fun cl => cl.primary_category = "confidentiality") =
        (List.map (fun c => classifyClauseCIA c.text) (c0 :: cls)).length := by
      rw [List.countP_eq_length]
      intro a ha
      simp only [List.mem_map] at ha
      obtain ⟨c, hc, rfl⟩ := ha
      simpa using (classifyClauseCIA_noHits c.text (hall c hc)).1
    have hdi : (List.map (fun c => classifyClauseCIA c.text) (c0 :: cls)).countP
        (fun cl => cl.primary_category = "integrity") = 0 := by
      rw [List.countP_eq_zero]
      intro a ha
      simp only [List.mem_map] at ha
      obtain ⟨c, hc, rfl⟩ := ha
      simp [(classifyClauseCIA_noHits c.text (hall c hc)).1]
    have hda : (List.map (fun c => classifyClauseCIA c.text) (c0 :: cls)).countP
        (fun cl => cl.primary_category = "availability") = 0 := by
      rw [List.countP_eq_zero]
      intro a ha
      simp only [List.mem_map] at ha
      obtain ⟨c, hc, rfl⟩ := ha
      simp [(classifyClauseCIA_noHits c.text (hall c hc)).1]
    have hn0 : (((c0 :: cls).length : ℕ) : ℚ) ≠ 0 := by
      have : (0 : ℚ) < (((c0 :: cls).length : ℕ) : ℚ) := by
        exact_mod_cast Nat.succ_pos cls.length
      exact ne_of_gt this
    refine ⟨_, rfl, ?_, ?_⟩
    · dsimp only [analyze_document_cia]
      rw [CIAQ.mk.injEq]
      rw [hdc, hdi, hda]
      simp only [List.length_map, Nat.cast_zero, zero_div, zero_mul]
      rw [div_self hn0, one_mul]
      norm_num [pyRound, rhe]
    · dsimp only [analyze_document_cia]
      rw [CIACounts.mk.injEq]
      rw [hdc, hdi, hda]
      simp [List.length_map]

/-- C10 witness: a one-clause document whose text ("hello world") hits no
CIA keyword. -/
theorem claim_C10_witness :
    ([(⟨"hello world"⟩ : Clause)] ≠ ([] : List Clause)) ∧
    (∀ c ∈ [(⟨"hello world"⟩ : Clause)], noCIAHits c.text) ∧
    (∃ r, analyze_document_cia (fun _ => 0) [⟨"hello world"⟩] = CIAOutcome.ok r ∧
      r.cia_coverage = ⟨100, 0, 0⟩ ∧
      r.cia_distribution = ⟨[(⟨"hello world"⟩ : Clause)].length, 0, 0⟩) :=
  ⟨by simp, by decide,
   claim_C10_zero_hit_cia_classification.2 (fun _ => 0) [⟨"hello world"⟩]
     (by simp) (by decide)⟩

/-- C6 witness: the count invariant and the embedding/empty-path
total-clauses equation instantiated on a model-present, one-control,
zero-clause run. -/
theorem claim_C6_witness :
    ([c5Ctrl] : List Control) ≠ [] ∧
    (semantic_analyze (some (fun _ _ => (1 : ℚ))) [c5Ctrl] [] "iso27001").strong_count +
      (semantic_analyze (some (fun _ _ => (1 : ℚ))) [c5Ctrl] [] "iso27001").partial_count +
      (semantic_analyze (some (fun _ _ => (1 : ℚ))) [c5Ctrl] [] "iso27001").weak_count =
      ((semantic_analyze (some (fun _ _ => (1 : ℚ))) [c5Ctrl] [] "iso27001").total_clauses : ℤ) ∧
    (semantic_analyze (some (fun _ _ => (1 : ℚ))) [c5Ctrl] [] "iso27001").total_clauses =
      ([] : List Clause).length :=
  ⟨by simp,
   (claim_C6_amended_count_invariant (some (fun _ _ => (1 : ℚ))) [c5Ctrl] [] "iso27001").1,
   (claim_C6_amended_count_invariant (some (fun _ _ => (1 : ℚ))) [c5Ctrl] [] "iso27001").2.2
     (fun _ _ => (1 : ℚ)) rfl (by simp)⟩

/-- Half-up evaluation of `rhe` when the fractional part exceeds 1/2. -/
theorem rhe_eq_succ {α : Type*} [LinearOrderedField α] [FloorRing α] {q : α} {n : ℤ}
    (h1 : (n : α) ≤ q) (h2 : q < (n : α) + 1) (h3 : (1 : α)/2 < q - (n : α)) :
    rhe q = n + 1 := by
  have hf : ⌊q⌋ = n := Int.floor_eq_iff.2 ⟨h1, by linarith⟩
  unfold rhe
  dsimp only
  rw [hf]
  rw [if_neg (by linarith), if_pos (by linarith)]

theorem pyRound_two_def (q : ℝ) : pyRound 2 q = ((rhe (q * 100) : ℤ) : ℝ) / 100 := by
  unfold pyRound
  norm_num

theorem pyRound_two_nonneg {q : ℝ} (h : -(1:ℝ)/2 < q * 100) : 0 ≤ pyRound 2 q := by
  rw [pyRound_two_def]
  have h0 : (0:ℤ) ≤ rhe (q * 100) := rhe_nonneg (by linarith)
  have h1 : (0:ℝ) ≤ ((rhe (q * 100) : ℤ) : ℝ) := by exact_mod_cast h0
  positivity

theorem pyRound_two_le_100 {q : ℝ} (h : q ≤ 100) : pyRound 2 q ≤ 100 := by
  rw [pyRound_two_def]
  have h1 : rhe (q * 100) ≤ (10000 : ℤ) := rhe_le (by norm_num; linarith)
  have h2 : ((rhe (q * 100) : ℤ) : ℝ) ≤ 10000 := by exact_mod_cast h1
  linarith

theorem pyRound_two_eval {q : ℝ} {n : ℤ} (h1 : (n : ℝ) ≤ q * 100)
    (h2 : q * 100 < (n : ℝ) + 1) (h3 : (1:ℝ)/2 < q * 100 - (n : ℝ)) :
    pyRound 2 q = ((n + 1 : ℤ) : ℝ) / 100 := by
  rw [pyRound_two_def, rhe_eq_succ h1 h2 h3]

theorem sqrt_two_bounds :
    (1.4142 : ℝ) < Real.sqrt 2 ∧ Real.sqrt 2 < 1.41427 := by
  have hs2 : Real.sqrt 2 ^ 2 = 2 := Real.sq_sqrt (by norm_num)
  have hs2n : (0 : ℝ) ≤ Real.sqrt 2 := Real.sqrt_nonneg 2
  constructor <;> nlinarith [hs2, hs2n]

/-- C8: `calculate_cia_balance_index` returns
`round(100 - (stddev(values)/47.14)*100, 2)`; for every 3-way percentage
coverage split the rounded result lies in [0, 100]; the even split
33.33/33.33/33.34 yields 99.99 (≈ 100) and the split 100/0/0 yields exactly
0 (the unrounded value is ≈ -0.00096, so rounding to 2 decimals gives
Python's `-0.0`). -/
theorem claim_C8_cia_balance_index :
    (∀ c i a : ℝ, calculate_cia_balance_index c i a =
      pyRound 2 (100 - npStd3 c i a / 47.14 * 100)) ∧
    (∀ x y z : ℝ, 0 ≤ x → 0 ≤ y → 0 ≤ z → x + y + z = 100 →
      0 ≤ calculate_cia_balance_index x y z ∧
      calculate_cia_balance_index x y z ≤ 100) ∧
    calculate_cia_balance_index 33.33 33.33 33.34 = 99.99 ∧
    calculate_cia_balance_index 100 0 0 = 0 := by
  obtain ⟨hlb, hub⟩ := sqrt_two_bounds
  have h4714 : (47.14 : ℝ) = 2357/50 := by norm_num
  refine ⟨fun c i a => rfl, ?_, ?_, ?_⟩
  · intro x y z hx hy hz hsum
    have hs20000 : Real.sqrt (20000/9) = (100/3) * Real.sqrt 2 := by
      rw [show (20000/9 : ℝ) = (100/3)^2 * 2 by norm_num,
        Real.sqrt_mul (by positivity), Real.sqrt_sq (by norm_num)]
    have hVle : ((x - (x+y+z)/3)^2 + (y - (x+y+z)/3)^2 + (z - (x+y+z)/3)^2) / 3 ≤
        (20000/9 : ℝ) := by
      nlinarith [mul_nonneg hx hy, mul_nonneg hy hz, mul_nonneg hx hz]
    have hstd_ub : npStd3 x y z ≤ (100/3) * Real.sqrt 2 := by
      unfold npStd3
      rw [← hs20000]
      exact Real.sqrt_le_sqrt hVle
    have hstd_lb : (0:ℝ) ≤ npStd3 x y z := Real.sqrt_nonneg _
    simp only [calculate_cia_balance_index]
    rw [h4714]
    constructor
    · apply pyRound_two_nonneg
      linarith [hstd_ub, hub]
    · apply pyRound_two_le_100
      have : 0 ≤ npStd3 x y z / (2357/50) * 100 := by positivity
      linarith
  · have hVeq : ((33.33 - (33.33+33.33+33.34)/3)^2 + (33.33 - (33.33+33.33+33.34)/3)^2 +
        (33.34 - (33.33+33.33+33.34)/3)^2) / 3 = (1/45000 : ℝ) := by norm_num
    have hsq : Real.sqrt (1/45000) = (1/300) * Real.sqrt 2 := by
      rw [show (1/45000 : ℝ) = (1/300)^2 * 2 by norm_num,
        Real.sqrt_mul (by positivity), Real.sqrt_sq (by norm_num)]
    have hstd : npStd3 33.33 33.33 33.34 = (1/300) * Real.sqrt 2 := by
      simp only [npStd3]
      rw [hVeq, hsq]
    simp only [calculate_cia_balance_index]
    rw [hstd, h4714]
    have harg : (100 - (1/300) * Real.sqrt 2 / (2357/50) * 100) * 100 =
        10000 - Real.sqrt 2 * (5000/7071) := by ring
    rw [pyRound_two_eval (n := 9998) (by rw [harg]; push_cast; linarith)
      (by rw [harg]; push_cast; linarith) (by rw [harg]; push_cast; linarith)]
    norm_num
  · have hVeq : ((100 - (100+0+0)/3)^2 + (0 - (100+0+0)/3)^2 +
        (0 - (100+0+0)/3)^2) / 3 = (20000/9 : ℝ) := by norm_num
    have hsq : Real.sqrt (20000/9) = (100/3) * Real.sqrt 2 := by
      rw [show (20000/9 : ℝ) = (100/3)^2 * 2 by norm_num,
        Real.sqrt_mul (by positivity), Real.sqrt_sq (by norm_num)]
    have hstd : npStd3 100 0 0 = (100/3) * Real.sqrt 2 := by
      simp only [npStd3]
      rw [hVeq, hsq]
    simp only [calculate_cia_balance_index]
    rw [hstd, h4714]
    have harg : (100 - (100/3) * Real.sqrt 2 / (2357/50) * 100) * 100 =
        10000 - Real.sqrt 2 * (50000000/7071) := by ring
    rw [pyRound_two_eval (n := -1) (by rw [harg]; push_cast; linarith)
      (by rw [harg]; push_cast; linarith) (by rw [harg]; push_cast; linarith)]
    norm_num

/-- C8 witness: the bound conjunct instantiated at the split 50/30/20. -/
theorem claim_C8_witness :
    (0:ℝ) ≤ 50 ∧ (0:ℝ) ≤ 30 ∧ (0:ℝ) ≤ 20 ∧ (50:ℝ) + 30 + 20 = 100 ∧
    (0 ≤ calculate_cia_balance_index 50 30 20 ∧
      calculate_cia_balance_index 50 30 20 ≤ 100) :=
  ⟨by norm_num, by norm_num, by norm_num, by norm_num,
   claim_C8_cia_balance_index.2.1 50 30 20 (by norm_num) (by norm_num)
     (by norm_num) (by norm_num)⟩

end ACG
